import Mathlib

/-!
Shallow embedding of the cricket match-state engine of `src/server.js`
(repository ervikas15/opc_cricket).

Modelling conventions, all matching the JavaScript source:
* The global `state` object becomes the structure `MatchState`, split into
  `Core` (all fields except `stateHistory`) and the history stack
  `stateHistory : List Core`; the source snapshot explicitly empties the
  nested history (`snapshot.stateHistory = []`), so snapshots are exactly
  `Core` values.
* JS numbers used as run tallies become `Int` (extras can be parsed
  negative by `parseInt`); counters that only ever increment become `Nat`.
* `log` entries keep the message text but drop the wall-clock timestamp
  prefix (`new Date().toLocaleTimeString()`), which is not statable.
* Each HTTP handler becomes a function `MatchState → payload → Outcome`.
  `Outcome.ok` is a 2xx response, `Outcome.err` a rejected request
  (status 400 or a `success:false` body), and `Outcome.fault` marks the
  places where the JS code would throw a TypeError (for example
  `state.teams[null].name`); in each case the carried state is the state
  as mutated up to that point, exactly as the mutable global would be.
* `parseInt` on route or body values is embedded as `jsParseInt`
  (base 10, optional sign, leading digits, `none` for NaN).
-/

namespace Cricket

/-- Player statistics record, `state.players[name]` in the source. -/
structure Player where
  name : String
  runs : Int
  ballsFaced : Nat
  fours : Nat
  sixes : Nat
  out : Bool
  outReason : Option String
deriving Repr, DecidableEq

/-- Bowler statistics record, an element of `state.bowlers`. -/
structure Bowler where
  name : String
  totalBalls : Nat
  runsConceded : Int
  wickets : Nat
  maidens : Nat
deriving Repr, DecidableEq

/-- Team display names, `state.teams.teamA.name` / `state.teams.teamB.name`. -/
structure Teams where
  teamA : String
  teamB : String
deriving Repr, DecidableEq

/-- Frozen first-innings totals, `state.innings1Score`. -/
structure Inn1Score where
  score : Int
  wickets : Nat
  balls : Nat
  battingTeam : Option String
deriving Repr, DecidableEq

/-- One entry of `state.fallOfWickets`. -/
structure FallEntry where
  player : String
  wicketType : String
  score : Int
  wickets : Nat
  overs : String
deriving Repr, DecidableEq

/-- The two rosters, `state.playerLists`. -/
structure PlayerLists where
  teamA : List String
  teamB : List String
deriving Repr, DecidableEq

/-- Every field of the global `state` object except `stateHistory`,
in source order.  A snapshot pushed by `takeSnapshot` is exactly one
`Core` value because the source empties the nested history. -/
structure Core where
  matchStarted : Bool
  setupPhase : Nat
  teams : Teams
  innings : Nat
  innings1Score : Inn1Score
  target : Int
  matchBallLimit : Int
  finalResult : Option String
  battingTeam : Option String
  bowlingTeam : Option String
  score : Int
  wickets : Nat
  balls : Nat
  players : List Player
  bowlers : List Bowler
  striker : Option String
  nonStriker : Option String
  currentBowler : Option String
  awaitingNewBatsman : Bool
  awaitingNewBowler : Bool
  lastOverBowler : Option String
  lastManStandingMode : Bool
  battingOrder : List String
  nextBatsmanIndex : Nat
  allPlayerNames : List String
  playerLists : PlayerLists
  log : List String
  fallOfWickets : List FallEntry
deriving Repr, DecidableEq

/-- The full mutable aggregate: current fields plus the undo stack. -/
structure MatchState where
  core : Core
  stateHistory : List Core
deriving Repr, DecidableEq

/-- Result of one handler call: success response, rejection, or a point
where the JS code would throw.  The carried state is the global state as
left by the call. -/
inductive Outcome where
  | ok (st : MatchState)
  | err (st : MatchState)
  | fault (st : MatchState)
deriving Repr, DecidableEq

/-- The state carried by any outcome. -/
def outState : Outcome → MatchState
  | .ok st => st
  | .err st => st
  | .fault st => st

/-- Whether an outcome is a success response. -/
def isOk : Outcome → Bool
  | .ok _ => true
  | _ => false

/-- Whether an outcome is a rejection. -/
def isErr : Outcome → Bool
  | .err _ => true
  | _ => false

/-- Parse the leading decimal digits of a character list, JS-style:
stop at the first non-digit; `none` when no digit was consumed. -/
def digitsVal : List Char → Option Nat → Option Nat
  | [], acc => acc
  | ch :: rest, acc =>
    if ch.isDigit then digitsVal rest (some ((acc.getD 0) * 10 + (ch.toNat - 48)))
    else acc

/-- Embedding of JS `parseInt(s)` (base 10): skip leading whitespace,
optional sign, then leading digits, ignoring trailing junk; `none`
models NaN. -/
def jsParseInt (s : String) : Option Int :=
  match s.data.dropWhile Char.isWhitespace with
  | [] => none
  | ch :: rest =>
    if ch = '-' then (digitsVal rest none).map (fun n => -(n : Int))
    else if ch = '+' then (digitsVal rest none).map (fun n => (n : Int))
    else (digitsVal (ch :: rest) none).map (fun n => (n : Int))

/-- JS `%` on integers truncates toward zero (sign of the dividend). -/
def jsMod (a b : Int) : Int := Int.tmod a b

/-- Embedding of JS `String.prototype.trim()` on the character list. -/
def jsTrim (s : String) : String :=
  ⟨((s.data.dropWhile Char.isWhitespace).reverse.dropWhile Char.isWhitespace).reverse⟩

/-- Character-level embedding of `split('.')`. -/
def splitOnDotAux : List Char → List Char → List String
  | [], acc => [String.mk acc.reverse]
  | ch :: rest, acc =>
    if ch = '.' then String.mk acc.reverse :: splitOnDotAux rest []
    else splitOnDotAux rest (ch :: acc)

/-- Embedding of `oversString.split('.')`. -/
def splitOnDot (s : String) : List String :=
  splitOnDotAux s.data []

/-- Lexicographic comparison of character lists by code point, as the
default JS `Array.sort()` comparator orders strings. -/
def charListLe : List Char → List Char → Bool
  | [], _ => true
  | _ :: _, [] => false
  | a :: as, b :: bs =>
    if a.toNat < b.toNat then true
    else if b.toNat < a.toNat then false
    else charListLe as bs

/-- String comparison used by the JS default sort. -/
def jsStrLe (a b : String) : Bool := charListLe a.data b.data

/-- Insertion of a string into a sorted list, for the JS `Array.sort()`
on `allPlayerNames` (lexicographic). -/
def insertSorted (x : String) : List String → List String
  | [] => [x]
  | y :: ys => if jsStrLe x y then x :: y :: ys else y :: insertSorted x ys

/-- Embedding of the JS in-place `sort()` on a string array. -/
def jsSortStrings : List String → List String
  | [] => []
  | x :: xs => insertSorted x (jsSortStrings xs)

/-- Coalescing of an optional request field with a default, as in
`(teamA && teamA.name) || "Team A"` (empty string is falsy). -/
def jsNameOr (o : Option String) (d : String) : String :=
  match o with
  | some s => if s = "" then d else s
  | none => d

/-- Truth of the JS falsiness test `!name` on a nullable string field. -/
def jsFalsyName : Option String → Bool
  | none => true
  | some s => s = ""

/-- MAX_HISTORY from the source. -/
def maxHistory : Nat := 10

/-- Embedding of `takeSnapshot()`: deep-copy the state minus its history,
push it, and evict the oldest entry once the stack exceeds the cap. -/
def takeSnapshot (st : MatchState) : MatchState :=
  let h := st.stateHistory ++ [st.core]
  ⟨st.core, if h.length > maxHistory then h.tail else h⟩

/-- Embedding of `log(msg)` (timestamp prefix abstracted away). -/
def pushLog (c : Core) (m : String) : Core :=
  {c with log := c.log ++ [m]}

/-- Default stats created by `ensurePlayerExists`. -/
def defaultPlayer (n : String) : Player :=
  ⟨n, 0, 0, 0, 0, false, none⟩

/-- Default stats created by `ensureBowlerExists`. -/
def defaultBowler (n : String) : Bowler :=
  ⟨n, 0, 0, 0, 0⟩

/-- List-level part of `ensurePlayerExists`: insert a fresh record unless
the name is falsy or already present. -/
def ensurePlayersL (ps : List Player) (n : String) : List Player :=
  if n = "" then ps
  else if ps.any (fun p => p.name = n) then ps
  else ps ++ [defaultPlayer n]

/-- Embedding of `ensurePlayerExists(name)` (its mutation part). -/
def ensurePlayerExists (c : Core) (n : String) : Core :=
  {c with players := ensurePlayersL c.players n}

/-- List-level update of one player record by name. -/
def modPlayersL (ps : List Player) (n : String) (f : Player → Player) : List Player :=
  ps.map (fun p => if p.name = n then f p else p)

/-- Mutation through the reference returned by `ensurePlayerExists`. -/
def modPlayer (c : Core) (n : String) (f : Player → Player) : Core :=
  {c with players := modPlayersL c.players n f}

/-- List-level part of `ensureBowlerExists`. -/
def ensureBowlersL (bs : List Bowler) (n : String) : List Bowler :=
  if n = "" then bs
  else if bs.any (fun b => b.name = n) then bs
  else bs ++ [defaultBowler n]

/-- Embedding of `ensureBowlerExists(name)` (its mutation part). -/
def ensureBowlerExists (c : Core) (n : String) : Core :=
  {c with bowlers := ensureBowlersL c.bowlers n}

/-- List-level update of one bowler record by name. -/
def modBowlersL (bs : List Bowler) (n : String) (f : Bowler → Bowler) : List Bowler :=
  bs.map (fun b => if b.name = n then f b else b)

/-- Mutation through the reference returned by `ensureBowlerExists`. -/
def modBowler (c : Core) (n : String) (f : Bowler → Bowler) : Core :=
  {c with bowlers := modBowlersL c.bowlers n f}

/-- The player record currently stored under a name. -/
def getPlayer (c : Core) (n : String) : Option Player :=
  c.players.find? (fun p => p.name = n)

/-- The bowler record currently stored under a name. -/
def getBowler (c : Core) (n : String) : Option Bowler :=
  c.bowlers.find? (fun b => b.name = n)

/-- Embedding of `formatOvers(balls)`. -/
def formatOvers (balls : Nat) : String :=
  toString (balls / 6) ++ "." ++ toString (balls % 6)

/-- The array-swap `[state.striker, state.nonStriker] = [state.nonStriker, state.striker]`. -/
def swapStrike (c : Core) : Core :=
  {c with striker := c.nonStriker, nonStriker := c.striker}

/-- Lookup `state.teams[key].name`; `none` where JS would throw on
`undefined.name`. -/
def teamNameOf (c : Core) (key : String) : Option String :=
  if key = "teamA" then some c.teams.teamA
  else if key = "teamB" then some c.teams.teamB
  else none

/-- Lookup `state.playerLists[key]`; `none` where JS would throw on
`undefined.length`. -/
def playerListOf (c : Core) (key : String) : Option (List String) :=
  if key = "teamA" then some c.playerLists.teamA
  else if key = "teamB" then some c.playerLists.teamB
  else none

/-- List-level part of the conditional bowler charge
`if (state.currentBowler) ensureBowlerExists(state.currentBowler).runsConceded += k`. -/
def chargeBowlerL (bs : List Bowler) (cb : Option String) (k : Int) : List Bowler :=
  match cb with
  | some b =>
    if b = "" then bs
    else modBowlersL (ensureBowlersL bs b) b (fun w => {w with runsConceded := w.runsConceded + k})
  | none => bs

/-- Charge runs to the current bowler when one is set. -/
def chargeBowler (c : Core) (k : Int) : Core :=
  {c with bowlers := chargeBowlerL c.bowlers c.currentBowler k}

/-- Result of `checkForMatchEnd`: no end, an end (with the mutated core),
or the spot where JS would throw on a missing team key. -/
inductive EndCheck where
  | notEnded
  | ended (c : Core)
  | fault
deriving Repr, DecidableEq

/-- Embedding of `checkForMatchEnd(res)` (lines 151-204): in innings 2,
win-by-wickets when the target is reached, else win-by-runs when the
innings is over with the score short; each firing sets `finalResult`,
pauses the match and moves `setupPhase` to 5. -/
def checkForMatchEnd (c : Core) : EndCheck :=
  if c.innings ≠ 2 then .notEnded
  else
    match c.battingTeam with
    | none => .fault
    | some bt =>
      match playerListOf c bt with
      | none => .fault
      | some roster =>
        let totalPlayers := roster.length
        let allOut := totalPlayers ≤ c.wickets
        let isMatchLimitReached := 0 < c.matchBallLimit ∧ (c.balls : Int) ≥ c.matchBallLimit
        if c.target ≤ c.score then
          match teamNameOf c bt with
          | none => .fault
          | some nm =>
            let wicketsLeft : Int := (totalPlayers : Int) - (c.wickets : Int)
            let msg := nm ++ " WIN by " ++ toString wicketsLeft ++ " wickets!"
            let c := pushLog c msg
            .ended {c with matchStarted := false, setupPhase := 5, finalResult := some msg}
        else if isMatchLimitReached ∨ allOut then
          match c.bowlingTeam with
          | none => .fault
          | some bw =>
            match teamNameOf c bw with
            | none => .fault
            | some nm =>
              let runsDiff := c.target - 1 - c.score
              let reason :=
                if isMatchLimitReached ∧ allOut then "All Out and Overs Complete"
                else if isMatchLimitReached then "Overs Complete"
                else "All Out"
              let msg := nm ++ " WIN by " ++ toString runsDiff ++ " runs! (" ++ reason ++ ")"
              let c := pushLog c msg
              .ended {c with matchStarted := false, setupPhase := 5, finalResult := some msg}
        else .notEnded

/-- The common tail of every scoring handler:
`if (checkForMatchEnd(res)) return; res.json(...)` — the response is a
success whether or not the match ended, and a fault in the check
surfaces as a fault with the state as mutated so far. -/
def finishScoring (c : Core) (hist : List Core) : Outcome :=
  match checkForMatchEnd c with
  | .fault => .fault ⟨c, hist⟩
  | .ended c2 => .ok ⟨c2, hist⟩
  | .notEnded => .ok ⟨c, hist⟩

/-- The module-initialisation value of the global `state` (lines 50-94);
the external player catalog is a parameter. -/
def initCore (catalog : List String) : Core where
  matchStarted := false
  setupPhase := 1
  teams := ⟨"Team A", "Team B"⟩
  innings := 1
  innings1Score := ⟨0, 0, 0, none⟩
  target := 0
  matchBallLimit := 0
  finalResult := none
  battingTeam := none
  bowlingTeam := none
  score := 0
  wickets := 0
  balls := 0
  players := []
  bowlers := []
  striker := none
  nonStriker := none
  currentBowler := none
  awaitingNewBatsman := false
  awaitingNewBowler := false
  lastOverBowler := none
  lastManStandingMode := false
  battingOrder := []
  nextBatsmanIndex := 2
  allPlayerNames := catalog
  playerLists := ⟨[], []⟩
  log := []
  fallOfWickets := []

/-- Initial process state: fresh core, empty undo stack. -/
def initialState (catalog : List String) : MatchState :=
  ⟨initCore catalog, []⟩

/-- Embedding of `POST /api/createTeams` (lines 251-311): snapshot, set
display names, reset all match progress, repopulate both rosters from the
sorted catalog, advance to phase 3.  Note the source never touches
`matchStarted` here. -/
def createTeams (catalog : List String) (st : MatchState)
    (teamAName teamBName : Option String) : Outcome :=
  let c := st.core
  let c := {c with teams := ⟨jsNameOr teamAName "Team A", jsNameOr teamBName "Team B"⟩}
  let c := {c with
    innings := 1
    innings1Score := ⟨0, 0, 0, none⟩
    target := 0
    matchBallLimit := 0
    finalResult := none
    battingTeam := none
    bowlingTeam := none
    score := 0
    wickets := 0
    balls := 0
    players := []
    bowlers := []
    striker := none
    nonStriker := none
    currentBowler := none
    awaitingNewBatsman := false
    awaitingNewBowler := false
    lastOverBowler := none
    lastManStandingMode := false
    battingOrder := []
    nextBatsmanIndex := 2
    fallOfWickets := []
    log := []
    setupPhase := 3}
  let sorted := jsSortStrings catalog
  let c := {c with allPlayerNames := sorted, playerLists := ⟨sorted, sorted⟩}
  let c := pushLog c ("Teams created: " ++ c.teams.teamA ++ " vs " ++ c.teams.teamB)
  .ok ⟨c, (takeSnapshot st).stateHistory⟩

/-- Parsing of the `matchOvers` request field into a ball count
(lines 336-347): `"<overs>.<balls>"`, balls capped at 5. -/
def parseMatchOvers (matchOvers : Option String) : Int :=
  let oversString :=
    match matchOvers with
    | none => "0"
    | some s => if s = "" then "0" else jsTrim s
  if oversString ≠ "" ∧ oversString ≠ "0" then
    let parts := splitOnDot oversString
    let fullOvers := (jsParseInt (parts.headD "")).getD 0
    let ballsInCurrentOver :=
      match parts with
      | _ :: b :: _ => (jsParseInt b).getD 0
      | _ => 0
    fullOvers * 6 + min 5 ballsInCurrentOver
  else 0

/-- Embedding of `POST /api/setTeamsAndMatch` (lines 316-384): reject on
any missing identifier or wrong phase (both before the snapshot), then
start the innings.  The source has no check that the two openers differ. -/
def setTeamsAndMatch (st : MatchState) (battingTeam openingStriker openingNonStriker
    startingBowler : String) (matchOvers : Option String) : Outcome :=
  if battingTeam = "" ∨ openingStriker = "" ∨ openingNonStriker = "" ∨ startingBowler = "" then
    .err st
  else if st.core.setupPhase ≠ 3 then .err st
  else
    let c := st.core
    let c := {c with
      matchBallLimit := parseMatchOvers matchOvers
      finalResult := none
      battingTeam := some battingTeam
      bowlingTeam := some (if battingTeam = "teamA" then "teamB" else "teamA")}
    let c := ensurePlayerExists c openingStriker
    let c := ensurePlayerExists c openingNonStriker
    let c := ensureBowlerExists c startingBowler
    let c := {c with
      striker := some openingStriker
      nonStriker := some openingNonStriker
      currentBowler := some startingBowler
      battingOrder := [openingStriker, openingNonStriker]
      nextBatsmanIndex := 2
      awaitingNewBatsman := false
      awaitingNewBowler := false
      lastManStandingMode := false
      fallOfWickets := []
      matchStarted := true
      setupPhase := 4}
    let c :=
      if 0 < c.matchBallLimit then
        pushLog c ("Match limit set to " ++ formatOvers c.matchBallLimit.toNat ++ " overs.")
      else c
    match teamNameOf c battingTeam with
    | none => .fault ⟨c, (takeSnapshot st).stateHistory⟩
    | some nm =>
      let c := pushLog c ("Innings " ++ toString c.innings ++ " started. " ++ nm ++ " batting.")
      .ok ⟨c, (takeSnapshot st).stateHistory⟩

/-- Embedding of `POST /api/endInnings` (lines 389-454).  In innings 2 it
runs the end check or force-ends the match without a snapshot; in
innings 1 it snapshots, freezes `innings1Score`, sets the target and
swaps the sides. -/
def endInnings (st : MatchState) : Outcome :=
  if st.core.innings = 2 then
    match checkForMatchEnd st.core with
    | .fault => .fault ⟨st.core, st.stateHistory⟩
    | .ended c2 => .ok ⟨c2, st.stateHistory⟩
    | .notEnded =>
      let c := {st.core with
        matchStarted := false
        setupPhase := 5
        finalResult := some "MATCH ENDED MANUALLY. No official result recorded."}
      let c := pushLog c "Innings 2 ended manually. Match finished."
      .ok ⟨c, st.stateHistory⟩
  else if st.core.innings ≠ 1 then .err st
  else
    let c := st.core
    let c := {c with
      innings1Score := ⟨c.score, c.wickets, c.balls, c.battingTeam⟩
      target := c.score + 1
      innings := 2
      matchStarted := false
      setupPhase := 3}
    let c := {c with
      battingTeam := c.bowlingTeam
      bowlingTeam := c.battingTeam
      score := 0
      wickets := 0
      balls := 0
      striker := none
      nonStriker := none
      currentBowler := none
      bowlers := []
      players := []
      finalResult := none
      awaitingNewBatsman := false
      awaitingNewBowler := false
      lastOverBowler := none
      lastManStandingMode := false
      battingOrder := []
      nextBatsmanIndex := 2
      fallOfWickets := []}
    match c.battingTeam with
    | none => .fault ⟨c, (takeSnapshot st).stateHistory⟩
    | some bt =>
      match teamNameOf c bt with
      | none => .fault ⟨c, (takeSnapshot st).stateHistory⟩
      | some nm =>
        let c := pushLog c ("Innings 1 ended. Target for " ++ nm ++ ": " ++ toString c.target)
        .ok ⟨c, (takeSnapshot st).stateHistory⟩

/-- The post-validation mutation block of `POST /api/run/:value` (lines
480-528): credit the striker and the bowler, bump the team score and the
legal-ball counter, log the runs, rotate the strike on odd runs, then
handle the end of the over. -/
def runScoringCore (c0 : Core) (sName bName : String) (runs : Int) : Core :=
  let c := ensurePlayerExists c0 sName
  let c := ensureBowlerExists c bName
  let c := modPlayer c sName (fun p =>
    {p with
      runs := p.runs + runs
      ballsFaced := p.ballsFaced + 1
      fours := if runs = 4 then p.fours + 1 else p.fours
      sixes := if runs = 6 then p.sixes + 1 else p.sixes})
  let c := modBowler c bName (fun b =>
    {b with totalBalls := b.totalBalls + 1, runsConceded := b.runsConceded + runs})
  let c := {c with score := c.score + runs, balls := c.balls + 1}
  let c := pushLog c (sName ++ " scored " ++ toString runs)
  let c :=
    if jsMod runs 2 = 1 then
      if !c.lastManStandingMode then
        pushLog (swapStrike c) "Strike rotated (odd runs)"
      else pushLog c "Strike not rotated (Last Man Standing)"
    else c
  if c.balls % 6 = 0 then
    let c := if !c.lastManStandingMode then swapStrike c else c
    let c := {c with
      lastOverBowler := c.currentBowler
      awaitingNewBowler := true
      matchStarted := false}
    pushLog c ("End of over " ++ formatOvers c.balls ++ " – awaiting next bowler")
  else c

/-- Embedding of `POST /api/run/:value` (lines 459-538): guards, snapshot,
parse and validate the run value, run the scoring block, then the shared
match-end check. -/
def recordRun (st : MatchState) (value : String) : Outcome :=
  if !st.core.matchStarted then .err st
  else if st.core.awaitingNewBatsman then .err st
  else if st.core.awaitingNewBowler then .err st
  else
    match jsParseInt value with
    | none => .err (takeSnapshot st)
    | some runs =>
      if runs < 0 then .err (takeSnapshot st)
      else
        match st.core.striker, st.core.currentBowler with
        | some sName, some bName =>
          if sName = "" ∨ bName = "" then .err (takeSnapshot st)
          else
            finishScoring (runScoringCore st.core sName bName runs)
              (takeSnapshot st).stateHistory
        | _, _ => .err (takeSnapshot st)

/-- The Last-Man-Standing innings end inside `POST /api/wicket` (lines
600-606): clear both batsmen, pause the match and log the end. -/
def wicketEndLMS (c0 : Core) : Core :=
  let c := {c0 with striker := none, nonStriker := none, matchStarted := false}
  pushLog c "All out. Innings ended."

/-- The awaiting-new-batsman pause inside `POST /api/wicket` (lines
612-624): clear the striker, raise the pause flag, and additionally pause
for a new bowler when the wicket fell on the last ball of the over. -/
def wicketPause (c0 : Core) : Core :=
  let c := {c0 with awaitingNewBatsman := true, striker := none}
  if c.balls % 6 = 0 then
    {c with awaitingNewBowler := true, lastOverBowler := c.currentBowler, matchStarted := false}
  else {c with matchStarted := false}

/-- The mutation block of `POST /api/wicket` once the striker and bowler
names are validated (lines 572-590): mark the striker out, credit the
bowler, bump the wicket and ball counters, record the fall of wicket and
log it. -/
def wicketFallCore (c0 : Core) (sName bName wicketType : String) : Core :=
  let c := ensureBowlerExists c0 bName
  let c := modPlayer c sName (fun p =>
    {p with out := true, outReason := some wicketType, ballsFaced := p.ballsFaced + 1})
  let c := modBowler c bName (fun b =>
    {b with totalBalls := b.totalBalls + 1, wickets := b.wickets + 1})
  let c := {c with wickets := c.wickets + 1, balls := c.balls + 1}
  let c := {c with fallOfWickets := c.fallOfWickets ++
    [⟨sName, wicketType, c.score, c.wickets, formatOvers c.balls⟩]}
  pushLog c (sName ++ " OUT (" ++ wicketType ++ ")")

/-- Embedding of `POST /api/wicket` (lines 543-630): guards, snapshot,
require a wicket type, mark the striker out, record the fall of wicket,
then either the Last-Man-Standing innings end or the awaiting-new-batsman
pause.  The source computes `isMatchOver` from the roster size and never
uses it. -/
def recordWicket (st : MatchState) (wicketType : String) : Outcome :=
  if !st.core.matchStarted then .err st
  else if st.core.awaitingNewBatsman then .err st
  else if st.core.awaitingNewBowler then .err st
  else
    if wicketType = "" then .err (takeSnapshot st)
    else
      match st.core.striker with
      | none => .fault (takeSnapshot st)
      | some sName =>
        if sName = "" then .fault (takeSnapshot st)
        else
          let c := ensurePlayerExists st.core sName
          match c.currentBowler with
          | none =>
            let c := modPlayer c sName (fun p =>
              {p with out := true, outReason := some wicketType, ballsFaced := p.ballsFaced + 1})
            .fault ⟨c, (takeSnapshot st).stateHistory⟩
          | some bName =>
            if bName = "" then
              let c := modPlayer c sName (fun p =>
                {p with out := true, outReason := some wicketType, ballsFaced := p.ballsFaced + 1})
              .fault ⟨c, (takeSnapshot st).stateHistory⟩
            else
              let c := wicketFallCore c sName bName wicketType
              match c.battingTeam with
              | none => .fault ⟨c, (takeSnapshot st).stateHistory⟩
              | some bt =>
                match playerListOf c bt with
                | none => .fault ⟨c, (takeSnapshot st).stateHistory⟩
                | some roster =>
                  -- the source computes `isMatchOver = wickets >= totalPlayers`
                  -- here and never reads it
                  let _isMatchOver := roster.length ≤ c.wickets
                  if c.lastManStandingMode then
                    let c := wicketEndLMS c
                    if c.innings = 2 then
                      finishScoring c (takeSnapshot st).stateHistory
                    else .ok ⟨c, (takeSnapshot st).stateHistory⟩
                  else
                    .ok ⟨wicketPause c, (takeSnapshot st).stateHistory⟩

/-- Embedding of `POST /api/newBatsman` (lines 635-663): while awaiting a
batsman, either promote the non-striker or install the named player; the
handler then unconditionally clears the flag and sets
`matchStarted = true`. -/
def newBatsman (st : MatchState) (name : String) : Outcome :=
  if !st.core.awaitingNewBatsman then .err st
  else
    let c := st.core
    let c :=
      if c.nonStriker = some name then
        pushLog (swapStrike c) "New batsman selection was non-striker: strike swapped."
      else
        let c := ensurePlayerExists c name
        let c := {c with striker := some name}
        let c :=
          if name ∈ c.battingOrder then c
          else {c with battingOrder := c.battingOrder ++ [name]}
        pushLog c ("New batsman: " ++ name)
    let c := {c with awaitingNewBatsman := false, matchStarted := true}
    .ok ⟨c, (takeSnapshot st).stateHistory⟩

/-- Embedding of `POST /api/activateLMS` (lines 668-694). -/
def activateLMS (st : MatchState) : Outcome :=
  if !st.core.awaitingNewBatsman then .err st
  else
    let c := st.core
    if jsFalsyName c.striker ∧ jsFalsyName c.nonStriker then .err (takeSnapshot st)
    else
      let c := if jsFalsyName c.striker then {c with striker := c.nonStriker} else c
      let c := {c with
        lastManStandingMode := true
        nonStriker := none
        awaitingNewBatsman := false
        matchStarted := true}
      let c := pushLog c "Last Man Standing Mode activated manually (forfeit remaining batsmen)."
      .ok ⟨c, (takeSnapshot st).stateHistory⟩

/-- The bowler tallies of `POST /api/wide` (lines 707-717): when a bowler
is set, add the 1-run penalty to their conceded runs and bump their ball
tally. -/
def wideTally (c : Core) : Core :=
  match c.currentBowler with
  | some b =>
    if b = "" then c
    else
      let c := modBowler (ensureBowlerExists c b) b
        (fun w => {w with runsConceded := w.runsConceded + 1})
      modBowler (ensureBowlerExists c b) b
        (fun w => {w with totalBalls := w.totalBalls + 1})
  | none => c

/-- Embedding of `POST /api/wide` (lines 700-725): +1 penalty to the team
and the bowler, the bowler also gets a ball tally, no legal ball. -/
def recordWide (st : MatchState) : Outcome :=
  if !st.core.matchStarted then .err st
  else if st.core.awaitingNewBatsman then .err st
  else if st.core.awaitingNewBowler then .err st
  else
    let c := {st.core with score := st.core.score + 1}
    let c := wideTally c
    let c := pushLog c "Wide (Total +1)"
    finishScoring c (takeSnapshot st).stateHistory

/-- Embedding of `POST /api/noball` (lines 730-753): +1 penalty to the
team and the bowler, no ball tally, no legal ball. -/
def recordNoball (st : MatchState) : Outcome :=
  if !st.core.matchStarted then .err st
  else if st.core.awaitingNewBatsman then .err st
  else if st.core.awaitingNewBowler then .err st
  else
    let c := {st.core with score := st.core.score + 1}
    let c := chargeBowler c 1
    let c := pushLog c "No-ball (Total +1)"
    finishScoring c (takeSnapshot st).stateHistory

/-- The striker credit of a no-ball extra (lines 777-782): when a striker
is set, add the extra runs to their personal tally. -/
def noballCredit (c : Core) (extra : Int) : Core :=
  match c.striker with
  | some s =>
    if s = "" then c
    else modPlayer (ensurePlayerExists c s) s (fun p => {p with runs := p.runs + extra})
  | none => c

/-- The no-ball arm of `POST /api/extras` (lines 774-800), applied after
the shared +1 penalty: credit the striker and the bowler with the extra
runs, add them to the team score, log, and rotate the strike when the
combined total is odd. -/
def noballExtrasCore (c0 : Core) (extra totalExtra : Int) : Core :=
  let c := noballCredit c0 extra
  let c := chargeBowler c extra
  let c := {c with score := c.score + extra}
  let c := pushLog c ("No-ball +" ++ toString extra ++ " (Total +" ++ toString totalExtra ++ ")")
  if jsMod totalExtra 2 = 1 then
    if !c.lastManStandingMode then
      pushLog (swapStrike c) "Strike rotated (odd total runs on no-ball)"
    else c
  else c

/-- The bowler ball-tally bump of a wide extra (lines 808-816): when a
bowler is set, bump their ball tally and log the bump. -/
def wideBump (c : Core) : Core :=
  match c.currentBowler with
  | some b =>
    if b = "" then c
    else
      let c := modBowler (ensureBowlerExists c b) b
        (fun w => {w with totalBalls := w.totalBalls + 1})
      pushLog c "Bowler total balls incremented for wide."
  | none => c

/-- The wide arm of `POST /api/extras` (lines 801-831), applied after the
shared +1 penalty: charge the bowler and the team with the extra runs,
bump the bowler ball tally, log, and rotate the strike when the combined
total is odd. -/
def wideExtrasCore (c0 : Core) (extra totalExtra : Int) : Core :=
  let c := chargeBowler c0 extra
  let c := {c with score := c.score + extra}
  let c := wideBump c
  let c := pushLog c ("Wide +" ++ toString extra ++ " (Total +" ++ toString totalExtra ++ ")")
  if jsMod totalExtra 2 = 1 then
    if !c.lastManStandingMode then
      pushLog (swapStrike c) "Strike rotated (odd total runs on wide)"
    else c
  else c

/-- Embedding of `POST /api/extras` (lines 759-837): +1 penalty always;
a no-ball credits the extra runs to the striker and the bowler, a wide
credits them to the bowler only and bumps the bowler ball tally; strike
rotates on an odd combined total unless Last-Man-Standing. -/
def extras (st : MatchState) (type : String) (extraRuns : Option Int) : Outcome :=
  if !st.core.matchStarted then .err st
  else if st.core.awaitingNewBatsman then .err st
  else if st.core.awaitingNewBowler then .err st
  else
    if type = "" ∨ (type ≠ "wide" ∧ type ≠ "noball") then .err (takeSnapshot st)
    else
      let extra : Int := extraRuns.getD 0
      let totalExtra := 1 + extra
      let c := {st.core with score := st.core.score + 1}
      let c := chargeBowler c 1
      if type = "noball" then
        finishScoring (noballExtrasCore c extra totalExtra) (takeSnapshot st).stateHistory
      else
        finishScoring (wideExtrasCore c extra totalExtra) (takeSnapshot st).stateHistory

/-- Embedding of `POST /api/selectBowler` (lines 842-892): reject a
missing bowler or a bowler who is a current batsman (outside LMS), then
snapshot, install the bowler and resume when a new bowler was awaited. -/
def selectBowler (st : MatchState) (bowler : String) : Outcome :=
  if bowler = "" then .err st
  else if !st.core.lastManStandingMode ∧
      (st.core.striker = some bowler ∨ st.core.nonStriker = some bowler) then .err st
  else
    let c := ensureBowlerExists st.core bowler
    let c := {c with currentBowler := some bowler}
    if c.awaitingNewBowler then
      let c := {c with awaitingNewBowler := false, lastOverBowler := none, matchStarted := true}
      let c := pushLog c ("Next bowler selected: " ++ bowler)
      .ok ⟨c, (takeSnapshot st).stateHistory⟩
    else
      let c := pushLog c ("Bowler changed to " ++ bowler)
      .ok ⟨c, (takeSnapshot st).stateHistory⟩

/-- Embedding of `POST /api/changeStrike` (lines 897-980): requires a
started match (the only pre-snapshot guard), then swap / set_striker /
set_non_striker; any other action is rejected after the snapshot. -/
def changeStrike (st : MatchState) (action name : String) : Outcome :=
  if !st.core.matchStarted then .err st
  else
    if action = "swap" then
      if jsFalsyName st.core.striker ∨ jsFalsyName st.core.nonStriker then
        .err (takeSnapshot st)
      else
        let c := pushLog (swapStrike st.core) "Strike swapped manually"
        .ok ⟨c, (takeSnapshot st).stateHistory⟩
    else if action = "set_striker" then
      if name = "" then .err (takeSnapshot st)
      else
        let c := ensurePlayerExists st.core name
        match getPlayer c name with
        | none => .fault ⟨c, (takeSnapshot st).stateHistory⟩
        | some player =>
          if player.out then .err ⟨c, (takeSnapshot st).stateHistory⟩
          else if c.nonStriker = some name then
            let c := pushLog (swapStrike c) ("Strike set to " ++ name ++ " (was non-striker)")
            .ok ⟨c, (takeSnapshot st).stateHistory⟩
          else if c.striker ≠ some name then
            let c := if !jsFalsyName c.striker then {c with nonStriker := c.striker} else c
            let c := {c with striker := some name}
            let c := pushLog c ("Strike changed - new striker: " ++ name)
            .ok ⟨c, (takeSnapshot st).stateHistory⟩
          else .ok ⟨c, (takeSnapshot st).stateHistory⟩
    else if action = "set_non_striker" then
      if name = "" then .err (takeSnapshot st)
      else
        let c := ensurePlayerExists st.core name
        match getPlayer c name with
        | none => .fault ⟨c, (takeSnapshot st).stateHistory⟩
        | some player =>
          if player.out then .err ⟨c, (takeSnapshot st).stateHistory⟩
          else if c.striker = some name then .err ⟨c, (takeSnapshot st).stateHistory⟩
          else
            let c := pushLog {c with nonStriker := some name} ("Non-Striker set to: " ++ name)
            .ok ⟨c, (takeSnapshot st).stateHistory⟩
    else .err (takeSnapshot st)

/-- Embedding of `POST /api/undo` (lines 985-1010): pop the last snapshot,
restore every field from it, keep the remaining history, drop the last
log line, then log the undo marker. -/
def undoAction (st : MatchState) : Outcome :=
  match st.stateHistory.getLast? with
  | none => .err st
  | some lastC =>
    let hist2 := st.stateHistory.dropLast
    let c := lastC
    let c := if c.log.isEmpty then c else {c with log := c.log.dropLast}
    let c := pushLog c "Last action UNDONE"
    .ok ⟨c, hist2⟩

/-- Embedding of `POST /api/reset` (lines 1016-1061): rebuild the whole
state from scratch with the reloaded catalog; unconditional. -/
def resetAction (catalog : List String) (_st : MatchState) : Outcome :=
  .ok (initialState catalog)

/-- One submitted event, tagging the handler and its payload. -/
inductive Event where
  | createTeamsE (a b : Option String)
  | setTeamsE (bt s ns bw : String) (ov : Option String)
  | endInningsE
  | runE (v : String)
  | wicketE (t : String)
  | newBatsmanE (n : String)
  | activateLMSE
  | wideE
  | noballE
  | extrasE (t : String) (er : Option Int)
  | selectBowlerE (b : String)
  | changeStrikeE (a n : String)
  | undoE
  | resetE
deriving Repr, DecidableEq

/-- Dispatch of one event to its handler. -/
def applyEvent (catalog : List String) (st : MatchState) : Event → Outcome
  | .createTeamsE a b => createTeams catalog st a b
  | .setTeamsE bt s ns bw ov => setTeamsAndMatch st bt s ns bw ov
  | .endInningsE => endInnings st
  | .runE v => recordRun st v
  | .wicketE t => recordWicket st t
  | .newBatsmanE n => newBatsman st n
  | .activateLMSE => activateLMS st
  | .wideE => recordWide st
  | .noballE => recordNoball st
  | .extrasE t er => extras st t er
  | .selectBowlerE b => selectBowler st b
  | .changeStrikeE a n => changeStrike st a n
  | .undoE => undoAction st
  | .resetE => resetAction catalog st

/-- Run a sequence of events, requiring every one to be accepted. -/
def runEvents (catalog : List String) (st : MatchState) : List Event → Option MatchState
  | [] => some st
  | e :: es =>
    match applyEvent catalog st e with
    | .ok st1 => runEvents catalog st1 es
    | _ => none

/-- Sequential composition that requires the first outcome to be a
success. -/
def okBind (o : Outcome) (f : MatchState → Outcome) : Outcome :=
  match o with
  | .ok s => f s
  | x => x

/-- Six consecutive `POST /api/run/1` submissions. -/
def run6From (st : MatchState) : Outcome :=
  okBind (recordRun st "1") fun s1 =>
  okBind (recordRun s1 "1") fun s2 =>
  okBind (recordRun s2 "1") fun s3 =>
  okBind (recordRun s3 "1") fun s4 =>
  okBind (recordRun s4 "1") fun s5 =>
  recordRun s5 "1"

/-- A player's personal run tally in a player list (0 when the record
does not exist yet, exactly what `ensurePlayerExists` would create). -/
def playerRunsL (ps : List Player) (n : String) : Int :=
  ((ps.find? (fun p => p.name = n)).getD (defaultPlayer n)).runs

/-- A bowler's conceded-runs tally in a bowler list (0 when absent). -/
def bowlerConcededL (bs : List Bowler) (n : String) : Int :=
  ((bs.find? (fun w => w.name = n)).getD (defaultBowler n)).runsConceded

/-- A bowler's own ball tally in a bowler list (0 when absent). -/
def bowlerBallsL (bs : List Bowler) (n : String) : Nat :=
  ((bs.find? (fun w => w.name = n)).getD (defaultBowler n)).totalBalls

/-- A live first innings at the start of an over: two-player roster,
openers at the crease, a bowler set, nothing awaited. -/
def demoLive : MatchState :=
  ⟨{ initCore ["A", "B"] with
      matchStarted := true
      setupPhase := 4
      battingTeam := some "teamA"
      bowlingTeam := some "teamB"
      striker := some "A"
      nonStriker := some "B"
      currentBowler := some "C"
      players := [defaultPlayer "A", defaultPlayer "B"]
      bowlers := [defaultBowler "C"]
      battingOrder := ["A", "B"]
      playerLists := ⟨["A", "B"], ["A", "B"]⟩ }, []⟩

/-- An innings-setup state (phase 3), as left by `createTeams`. -/
def demoSetup : MatchState :=
  ⟨{ initCore ["A", "B"] with
      setupPhase := 3
      playerLists := ⟨["A", "B"], ["A", "B"]⟩ }, []⟩

/-- A state where a wicket just fell on the last ball of an over: both
await flags are set, as lines 611-618 of the source leave them. -/
def demoBothAwait : MatchState :=
  ⟨{ demoLive.core with
      matchStarted := false
      awaitingNewBatsman := true
      awaitingNewBowler := true
      striker := none
      balls := 6
      wickets := 1 }, []⟩

/-- A live second innings chasing a target of 5, score 3. -/
def demoChase : MatchState :=
  ⟨{ demoLive.core with
      innings := 2
      target := 5
      score := 3
      innings1Score := ⟨4, 1, 12, some "teamB"⟩ }, []⟩

/-- The chase state at the moment the target has just been reached. -/
def demoChaseWin : Core :=
  { demoChase.core with score := 5 }

/-- State left by the rejected `recordRun demoLive "-1"` call. -/
def c1post : MatchState := outState (recordRun demoLive "-1")

/-- A live state whose log holds one earlier line, for the undo
round-trip counterexample. -/
def c2demoPre : MatchState := ⟨{ demoLive.core with log := ["opening ball"] }, []⟩

/-- State after an accepted wide from `c2demoPre`. -/
def c2demoPost : MatchState := outState (applyEvent [] c2demoPre .wideE)

/-- State after undoing that wide. -/
def c2demoUndone : MatchState := outState (undoAction c2demoPost)

/-- Event sequence on a 2-player roster: three wickets all get accepted,
the third one after the side is already all out. -/
def c3seq : List Event :=
  [.createTeamsE (some "Lions") (some "Tigers"),
   .setTeamsE "teamA" "A" "B" "C" none,
   .wicketE "bowled",
   .newBatsmanE "D",
   .wicketE "bowled",
   .newBatsmanE "E",
   .wicketE "bowled"]

/-- State after six accepted singles from `demoLive`. -/
def c5post : MatchState := outState (run6From demoLive)

/-- State accepted by `setTeamsAndMatch` with identical openers. -/
def c6post : MatchState := outState (setTeamsAndMatch demoSetup "teamA" "A" "A" "C" none)

/-- State after selecting a new batsman while a new bowler is still
awaited. -/
def c7post : MatchState := outState (newBatsman demoBothAwait "D")

/-- State after calling `createTeams` on a live match. -/
def c10post : MatchState := outState (createTeams ["A", "B"] demoLive (some "Lions") (some "Tigers"))

end Cricket

namespace Cricket

/-! ### Claim C1: state on rejected submissions -/

/-- Claim C1 counterexample: a RecordRun call with the negative value
`-1` is rejected, leaves every core field unchanged, but pushes a
snapshot onto `stateHistory`, so the history is not unchanged as the
claim states. -/
theorem c1_counterexample :
    recordRun demoLive "-1" = .err c1post ∧
    c1post.core = demoLive.core ∧
    c1post.stateHistory = [demoLive.core] ∧
    c1post.stateHistory ≠ demoLive.stateHistory := by decide

/-- Claim C1 (amended): under the scoring guards, a RecordRun call with a
non-numeric or negative value, a RecordWicket call with an empty
wicketType and a ChangeStrike call with an invalid action are each
rejected with every core field unchanged, but with one snapshot of the
pre-call core pushed onto `stateHistory` (the state is exactly
`takeSnapshot` of the pre-call state). -/
theorem c1_rejection_after_snapshot (st : MatchState) (v wt a n : String)
    (hms : st.core.matchStarted = true)
    (hanb : st.core.awaitingNewBatsman = false)
    (hanw : st.core.awaitingNewBowler = false)
    (hv : jsParseInt v = none ∨ ∃ r, jsParseInt v = some r ∧ r < 0)
    (hwt : wt = "")
    (ha : a ≠ "swap" ∧ a ≠ "set_striker" ∧ a ≠ "set_non_striker") :
    recordRun st v = .err (takeSnapshot st) ∧
    recordWicket st wt = .err (takeSnapshot st) ∧
    changeStrike st a n = .err (takeSnapshot st) ∧
    (takeSnapshot st).core = st.core := by
  refine ⟨?_, ?_, ?_, rfl⟩
  · unfold recordRun
    simp only [hms, hanb, hanw, Bool.not_true, Bool.false_eq_true, if_false]
    rcases hv with h | ⟨r, hr, hneg⟩
    · rw [h]
    · rw [hr]
      simp [hneg]
  · subst hwt
    unfold recordWicket
    simp [hms, hanb, hanw]
  · unfold changeStrike
    simp [hms, ha.1, ha.2.1, ha.2.2]

/-- Claim C1 witness: the amended theorem at a concrete live state with
payloads `"abc"`, `""` and `"badaction"`. -/
theorem c1_witness :
    recordRun demoLive "abc" = .err (takeSnapshot demoLive) ∧
    recordWicket demoLive "" = .err (takeSnapshot demoLive) ∧
    changeStrike demoLive "badaction" "X" = .err (takeSnapshot demoLive) ∧
    (takeSnapshot demoLive).core = demoLive.core :=
  c1_rejection_after_snapshot demoLive "abc" "" "badaction" "X" rfl rfl rfl
    (Or.inl (by decide)) rfl (by decide)

/-! ### Claim C3: wickets can exceed the roster size -/

/-- Claim C3: with a 2-player roster, the source accepts a third wicket
after the side is already all out — `newBatsman` is accepted for any
name while `awaitingNewBatsman` is set, and the wicket handler computes
`isMatchOver` without using it — so the reachable state shown here has
`wickets = 3 > 2 = rosterSize`, refuting both `wickets ≤ rosterSize` and
the claim that no scoring event is accepted once `wickets = rosterSize`. -/
theorem c3_wickets_exceed_roster :
    (runEvents ["A", "B"] (initialState ["A", "B"]) c3seq).map
      (fun st => (st.core.wickets, st.core.playerLists.teamA.length)) = some (3, 2) := by
  decide

/-! ### Claim C6: StartInnings validation -/

/-- Claim C6 counterexample: `setTeamsAndMatch` with identical openers
`"A"`/`"A"` is accepted from the setup phase, and the resulting state has
`striker = nonStriker = some "A"`, so the call is not rejected and the
striker-differs-from-non-striker invariant fails. -/
theorem c6_counterexample :
    setTeamsAndMatch demoSetup "teamA" "A" "A" "C" none = .ok c6post ∧
    c6post.core.striker = some "A" ∧
    c6post.core.nonStriker = some "A" := by decide

/-- Claim C6 (amended): `setTeamsAndMatch` is rejected, with the state
unchanged, exactly when one of the four identifiers is missing or the
phase is not InningsSetup; there is no check of the openers against each
other, so a call with equal openers is accepted and installs the same
name as striker and non-striker. -/
theorem c6_startInnings_validation (st : MatchState) (bt s ns bw : String) (ov : Option String) :
    ((bt = "" ∨ s = "" ∨ ns = "" ∨ bw = "") → setTeamsAndMatch st bt s ns bw ov = .err st) ∧
    (st.core.setupPhase ≠ 3 → setTeamsAndMatch st bt s ns bw ov = .err st) ∧
    ((bt = "teamA" ∨ bt = "teamB") → ¬(bt = "" ∨ s = "" ∨ ns = "" ∨ bw = "") →
      st.core.setupPhase = 3 →
      ∃ st2, setTeamsAndMatch st bt s ns bw ov = .ok st2 ∧
        st2.core.striker = some s ∧ st2.core.nonStriker = some ns ∧
        st2.core.matchStarted = true) := by
  refine ⟨?_, ?_, ?_⟩
  · intro h
    unfold setTeamsAndMatch
    rw [if_pos h]
  · intro h
    unfold setTeamsAndMatch
    by_cases hmiss : bt = "" ∨ s = "" ∨ ns = "" ∨ bw = ""
    · rw [if_pos hmiss]
    · rw [if_neg hmiss, if_pos h]
  · intro hbt hmiss h3
    unfold setTeamsAndMatch
    rw [if_neg hmiss, if_neg (by simp [h3])]
    rcases hbt with rfl | rfl <;>
      refine ⟨_, rfl, ?_, ?_, ?_⟩ <;>
      simp [apply_ite Core.striker, apply_ite Core.nonStriker,
        apply_ite Core.matchStarted, pushLog]

/-- Claim C6 witness: the amended theorem at a concrete setup state with
distinct openers and at a missing-identifier call. -/
theorem c6_witness :
    setTeamsAndMatch demoSetup "" "A" "B" "C" none = .err demoSetup ∧
    ∃ st2, setTeamsAndMatch demoSetup "teamA" "A" "B" "C" none = .ok st2 ∧
      st2.core.striker = some "A" ∧ st2.core.nonStriker = some "B" ∧
      st2.core.matchStarted = true :=
  ⟨(c6_startInnings_validation demoSetup "" "A" "B" "C" none).1 (Or.inl rfl),
   (c6_startInnings_validation demoSetup "teamA" "A" "B" "C" none).2.2
     (Or.inl rfl) (by decide) rfl⟩

/-! ### Claim C7: newBatsman resumes unconditionally -/

/-- Claim C7 counterexample: from a state where both await flags are set
(wicket on the last ball of an over), `newBatsman` is accepted and sets
`matchStarted = true` even though `awaitingNewBowler` is still true, so
`matchStarted` does not remain false as the claim states. -/
theorem c7_counterexample :
    newBatsman demoBothAwait "D" = .ok c7post ∧
    c7post.core.awaitingNewBowler = true ∧
    c7post.core.matchStarted = true := by decide

/-- Claim C7 (amended): an accepted `newBatsman` call always clears
`awaitingNewBatsman` and unconditionally sets `matchStarted = true`,
leaving `awaitingNewBowler` untouched; scoring stays blocked only
because the scoring guards check `awaitingNewBowler` separately. -/
theorem c7_newBatsman_resumes (st : MatchState) (n : String) (st2 : MatchState)
    (h : newBatsman st n = .ok st2) :
    st2.core.awaitingNewBatsman = false ∧
    st2.core.matchStarted = true ∧
    st2.core.awaitingNewBowler = st.core.awaitingNewBowler ∧
    (st.core.awaitingNewBowler = true → ∀ v, ∃ stE, recordRun st2 v = .err stE) := by
  unfold newBatsman at h
  split at h
  · exact Outcome.noConfusion h
  · injection h with h2
    have e1 : st2.core.awaitingNewBatsman = false := by rw [← h2]
    have e2 : st2.core.matchStarted = true := by rw [← h2]
    have e3 : st2.core.awaitingNewBowler = st.core.awaitingNewBowler := by
      rw [← h2]
      simp [apply_ite Core.awaitingNewBowler, pushLog, swapStrike,
        ensurePlayerExists, takeSnapshot]
    refine ⟨e1, e2, e3, ?_⟩
    intro hb v
    refine ⟨st2, ?_⟩
    unfold recordRun
    simp [e1, e2, e3, hb]

/-- Claim C7 witness: the amended theorem at the concrete both-flags
state. -/
theorem c7_witness :
    c7post.core.awaitingNewBatsman = false ∧
    c7post.core.matchStarted = true ∧
    c7post.core.awaitingNewBowler = demoBothAwait.core.awaitingNewBowler ∧
    (demoBothAwait.core.awaitingNewBowler = true → ∀ v, ∃ stE, recordRun c7post v = .err stE) :=
  c7_newBatsman_resumes demoBothAwait "D" c7post (by decide)

/-! ### Claim C10: createTeams is total and wipes the match -/

/-- Claim C10 counterexample: after `createTeams` on a live match the log
is not reset to its empty default — it holds the single team-creation
line — so the claim that the log is reset to its zero/null/empty default
fails (the other listed fields are indeed reset). -/
theorem c10_counterexample :
    createTeams ["A", "B"] demoLive (some "Lions") (some "Tigers") = .ok c10post ∧
    c10post.core.log = ["Teams created: Lions vs Tigers"] ∧
    c10post.core.log ≠ [] := by decide

/-- Claim C10 (amended): `createTeams` is never rejected: in every state
it succeeds, overwrites the team names, resets score, wickets, balls,
players, bowlers, batting order, fall of wickets, pause flags, target and
finalResult to their zero/null/empty defaults, advances `setupPhase`
to 3, and leaves the log holding exactly the one team-creation entry
(every earlier line erased); `matchStarted` is left untouched, so a live
match is silently wiped. -/
theorem c10_createTeams_total (catalog : List String) (st : MatchState)
    (a b : Option String) :
    ∃ st2, createTeams catalog st a b = .ok st2 ∧
      st2.core.teams = ⟨jsNameOr a "Team A", jsNameOr b "Team B"⟩ ∧
      st2.core.score = 0 ∧ st2.core.wickets = 0 ∧ st2.core.balls = 0 ∧
      st2.core.players = [] ∧ st2.core.bowlers = [] ∧
      st2.core.battingOrder = [] ∧ st2.core.fallOfWickets = [] ∧
      st2.core.awaitingNewBatsman = false ∧ st2.core.awaitingNewBowler = false ∧
      st2.core.target = 0 ∧ st2.core.finalResult = none ∧
      st2.core.striker = none ∧ st2.core.nonStriker = none ∧
      st2.core.currentBowler = none ∧
      st2.core.battingTeam = none ∧ st2.core.bowlingTeam = none ∧
      st2.core.innings = 1 ∧ st2.core.matchBallLimit = 0 ∧
      st2.core.lastManStandingMode = false ∧ st2.core.lastOverBowler = none ∧
      st2.core.setupPhase = 3 ∧
      st2.core.log = ["Teams created: " ++ jsNameOr a "Team A" ++ " vs " ++ jsNameOr b "Team B"] ∧
      st2.core.matchStarted = st.core.matchStarted :=
  ⟨_, rfl, rfl, rfl, rfl, rfl, rfl, rfl, rfl, rfl, rfl, rfl, rfl, rfl, rfl, rfl, rfl,
   rfl, rfl, rfl, rfl, rfl, rfl, rfl, rfl, rfl⟩

/-! ### Claim C4: the shared match-end check -/

/-- Claim C4: in innings 2 (with the team keys resolvable, as every
reachable innings-2 state has them), `checkForMatchEnd` fires at most
one outcome: win-by-wickets when `score ≥ target`, reporting
`rosterSize − wickets` wickets in hand; win-by-runs when the innings is
over (all out or ball-limit reached) and `score < target`, reporting
`target − 1 − score` runs short (zero in the tie case); otherwise it
does not fire.  Whenever it fires it sets `finalResult` to the non-null
message, `matchStarted` to false and `setupPhase` to 5 (Finished). -/
theorem c4_matchEnd_check (c : Core) (bt bw batName bowlName : String) (roster : List String)
    (h2 : c.innings = 2)
    (hbt : c.battingTeam = some bt)
    (hrl : playerListOf c bt = some roster)
    (hbn : teamNameOf c bt = some batName)
    (hbw : c.bowlingTeam = some bw)
    (hwn : teamNameOf c bw = some bowlName) :
    (c.target ≤ c.score →
      ∃ c2, checkForMatchEnd c = .ended c2 ∧
        c2.finalResult = some (batName ++ " WIN by " ++
          toString ((roster.length : Int) - (c.wickets : Int)) ++ " wickets!") ∧
        c2.matchStarted = false ∧ c2.setupPhase = 5) ∧
    (c.score < c.target →
      ((0 < c.matchBallLimit ∧ (c.balls : Int) ≥ c.matchBallLimit) ∨ roster.length ≤ c.wickets) →
      ∃ c2 reason, checkForMatchEnd c = .ended c2 ∧
        c2.finalResult = some (bowlName ++ " WIN by " ++
          toString (c.target - 1 - c.score) ++ " runs! (" ++ reason ++ ")") ∧
        c2.matchStarted = false ∧ c2.setupPhase = 5) ∧
    (c.score < c.target →
      ¬((0 < c.matchBallLimit ∧ (c.balls : Int) ≥ c.matchBallLimit) ∨ roster.length ≤ c.wickets) →
      checkForMatchEnd c = .notEnded) := by
  unfold checkForMatchEnd
  rw [if_neg (by simp [h2])]
  simp only [hbt, hrl, hbn, hbw, hwn]
  refine ⟨?_, ?_, ?_⟩
  · intro hts
    rw [if_pos hts]
    exact ⟨_, rfl, rfl, rfl, rfl⟩
  · intro hst hover
    rw [if_neg (not_le.mpr hst), if_pos hover]
    exact ⟨_, _, rfl, rfl, rfl, rfl⟩
  · intro hst hnot
    rw [if_neg (not_le.mpr hst), if_neg hnot]

/-- Claim C4 witness: the theorem at the concrete chase state whose
score has just reached the target of 5 with 0 wickets down on a
2-player roster: the check fires win-by-wickets (2 in hand). -/
theorem c4_witness :
    ∃ c2, checkForMatchEnd demoChaseWin = .ended c2 ∧
      c2.finalResult = some ("Team A" ++ " WIN by " ++
        toString (((["A", "B"] : List String).length : Int) - (demoChaseWin.wickets : Int)) ++
        " wickets!") ∧
      c2.matchStarted = false ∧ c2.setupPhase = 5 :=
  (c4_matchEnd_check demoChaseWin "teamA" "teamB" "Team A" "Team B" ["A", "B"]
    rfl rfl (by decide) (by decide) rfl (by decide)).1 (by decide)

/-! ### Claim C8: effects of the extras endpoint -/

/-- Projection of the snapshot: `takeSnapshot` leaves the core as is. -/
theorem takeSnapshot_core (st : MatchState) : (takeSnapshot st).core = st.core := rfl

/-- Lookup after `ensurePlayerExists`: the record under a non-empty name
is the existing one, or the fresh default. -/
theorem find?_ensurePlayersL (ps : List Player) (n : String) (hn : n ≠ "") :
    (ensurePlayersL ps n).find? (fun p => p.name = n) =
      some ((ps.find? (fun p => p.name = n)).getD (defaultPlayer n)) := by
  unfold ensurePlayersL
  rw [if_neg hn]
  by_cases hmem : ps.any (fun p => p.name = n)
  · rw [if_pos hmem]
    have hsome : (ps.find? (fun p => p.name = n)).isSome := by
      rw [List.find?_isSome]
      exact List.any_eq_true.mp hmem
    obtain ⟨q, hq⟩ := Option.isSome_iff_exists.mp hsome
    rw [hq]
    rfl
  · rw [if_neg hmem]
    rw [List.find?_append]
    have hnone : ps.find? (fun p => p.name = n) = none := by
      rw [List.find?_eq_none]
      intro x hx hname
      exact hmem (List.any_eq_true.mpr ⟨x, hx, hname⟩)
    rw [hnone]
    simp [List.find?, defaultPlayer]

/-- Lookup after a name-preserving in-place update of one player. -/
theorem find?_modPlayersL (ps : List Player) (n : String) (f : Player → Player)
    (hf : ∀ p, (f p).name = p.name) :
    (modPlayersL ps n f).find? (fun p => p.name = n) =
      (ps.find? (fun p => p.name = n)).map f := by
  unfold modPlayersL
  induction ps with
  | nil => rfl
  | cons p ps ih =>
    by_cases hp : p.name = n
    · simp [List.find?_cons, hp, hf]
    · simp [List.find?_cons, hp, hf, ih]

/-- Lookup after `ensureBowlerExists`. -/
theorem find?_ensureBowlersL (bs : List Bowler) (n : String) (hn : n ≠ "") :
    (ensureBowlersL bs n).find? (fun w => w.name = n) =
      some ((bs.find? (fun w => w.name = n)).getD (defaultBowler n)) := by
  unfold ensureBowlersL
  rw [if_neg hn]
  by_cases hmem : bs.any (fun w => w.name = n)
  · rw [if_pos hmem]
    have hsome : (bs.find? (fun w => w.name = n)).isSome := by
      rw [List.find?_isSome]
      exact List.any_eq_true.mp hmem
    obtain ⟨q, hq⟩ := Option.isSome_iff_exists.mp hsome
    rw [hq]
    rfl
  · rw [if_neg hmem]
    rw [List.find?_append]
    have hnone : bs.find? (fun w => w.name = n) = none := by
      rw [List.find?_eq_none]
      intro x hx hname
      exact hmem (List.any_eq_true.mpr ⟨x, hx, hname⟩)
    rw [hnone]
    simp [List.find?, defaultBowler]

/-- Lookup after a name-preserving in-place update of one bowler. -/
theorem find?_modBowlersL (bs : List Bowler) (n : String) (f : Bowler → Bowler)
    (hf : ∀ w, (f w).name = w.name) :
    (modBowlersL bs n f).find? (fun w => w.name = n) =
      (bs.find? (fun w => w.name = n)).map f := by
  unfold modBowlersL
  induction bs with
  | nil => rfl
  | cons w bs ih =>
    by_cases hw : w.name = n
    · simp [List.find?_cons, hw, hf]
    · simp [List.find?_cons, hw, hf, ih]

/-- A bowler charge adds to the conceded tally and leaves the ball tally
alone. -/
theorem bowler_charge_effect (bs : List Bowler) (b : String) (k : Int) (hb0 : b ≠ "") :
    bowlerConcededL (chargeBowlerL bs (some b) k) b = bowlerConcededL bs b + k ∧
    bowlerBallsL (chargeBowlerL bs (some b) k) b = bowlerBallsL bs b := by
  have h1 := find?_modBowlersL (ensureBowlersL bs b) b
    (fun w => {w with runsConceded := w.runsConceded + k}) (fun w => rfl)
  have h2 := find?_ensureBowlersL bs b hb0
  simp only [chargeBowlerL, if_neg hb0, bowlerConcededL, bowlerBallsL, h1, h2]
  exact ⟨rfl, rfl⟩

/-- The wide-only ball-tally bump adds one ball and no runs. -/
theorem bowler_bump_effect (bs : List Bowler) (b : String) (hb0 : b ≠ "") :
    bowlerConcededL (modBowlersL (ensureBowlersL bs b) b
        (fun w => {w with totalBalls := w.totalBalls + 1})) b = bowlerConcededL bs b ∧
    bowlerBallsL (modBowlersL (ensureBowlersL bs b) b
        (fun w => {w with totalBalls := w.totalBalls + 1})) b = bowlerBallsL bs b + 1 := by
  have h1 := find?_modBowlersL (ensureBowlersL bs b) b
    (fun w => {w with totalBalls := w.totalBalls + 1}) (fun w => rfl)
  have h2 := find?_ensureBowlersL bs b hb0
  simp only [bowlerConcededL, bowlerBallsL, h1, h2]
  exact ⟨rfl, rfl⟩

/-- A run credit to the striker adds to the personal tally. -/
theorem player_credit_effect (ps : List Player) (s : String) (k : Int) (hs0 : s ≠ "") :
    playerRunsL (modPlayersL (ensurePlayersL ps s) s (fun p => {p with runs := p.runs + k})) s =
      playerRunsL ps s + k := by
  have h1 := find?_modPlayersL (ensurePlayersL ps s) s
    (fun p => {p with runs := p.runs + k}) (fun p => rfl)
  have h2 := find?_ensurePlayersL ps s hs0
  simp only [playerRunsL, h1, h2]
  rfl

/-- When `checkForMatchEnd` fires, it changes only the log, the pause
flag, the phase and the result message. -/
theorem checkForMatchEnd_ended_fields (c c2 : Core) (h : checkForMatchEnd c = .ended c2) :
    c2.score = c.score ∧ c2.balls = c.balls ∧ c2.players = c.players ∧
    c2.bowlers = c.bowlers ∧ c2.target = c.target ∧ c2.innings1Score = c.innings1Score ∧
    c2.wickets = c.wickets ∧ c2.matchStarted = false ∧ c2.setupPhase = 5 := by
  simp only [checkForMatchEnd] at h
  repeat' split at h
  all_goals first
    | exact EndCheck.noConfusion h
    | (injection h with h2; subst h2;
       exact ⟨rfl, rfl, rfl, rfl, rfl, rfl, rfl, rfl, rfl⟩)

/-- The scoring tail never rejects. -/
theorem finishScoring_isErr (c : Core) (h : List Core) :
    isErr (finishScoring c h) = false := by
  unfold finishScoring
  cases checkForMatchEnd c <;> rfl

/-- The scoring tail preserves the team score. -/
theorem finishScoring_score (c : Core) (h : List Core) :
    (outState (finishScoring c h)).core.score = c.score := by
  unfold finishScoring
  cases hE : checkForMatchEnd c with
  | notEnded => rfl
  | fault => rfl
  | ended c2 => exact (checkForMatchEnd_ended_fields c c2 hE).1

/-- The scoring tail preserves the legal-ball counter. -/
theorem finishScoring_balls (c : Core) (h : List Core) :
    (outState (finishScoring c h)).core.balls = c.balls := by
  unfold finishScoring
  cases hE : checkForMatchEnd c with
  | notEnded => rfl
  | fault => rfl
  | ended c2 => exact (checkForMatchEnd_ended_fields c c2 hE).2.1

/-- The scoring tail preserves the player statistics. -/
theorem finishScoring_players (c : Core) (h : List Core) :
    (outState (finishScoring c h)).core.players = c.players := by
  unfold finishScoring
  cases hE : checkForMatchEnd c with
  | notEnded => rfl
  | fault => rfl
  | ended c2 => exact (checkForMatchEnd_ended_fields c c2 hE).2.2.1

/-- The scoring tail preserves the bowler statistics. -/
theorem finishScoring_bowlers (c : Core) (h : List Core) :
    (outState (finishScoring c h)).core.bowlers = c.bowlers := by
  unfold finishScoring
  cases hE : checkForMatchEnd c with
  | notEnded => rfl
  | fault => rfl
  | ended c2 => exact (checkForMatchEnd_ended_fields c c2 hE).2.2.2.1

/-- Claim C8: for every accepted RecordExtra event (a live state with a
striker and a bowler set), wide and no-ball each add the 1-run penalty
plus the extra runs to the team score and to the bowler's runsConceded;
a no-ball additionally credits the extra runs to the striker's personal
runs, while a wide never credits the striker; neither kind increments
the legal-ball counter `balls`; and only a wide bumps the bowler's own
cosmetic ball tally, by exactly one. -/
theorem c8_extras_effects (st : MatchState) (type : String) (er : Option Int) (s b : String)
    (hms : st.core.matchStarted = true)
    (hanb : st.core.awaitingNewBatsman = false)
    (hanw : st.core.awaitingNewBowler = false)
    (hs : st.core.striker = some s) (hs0 : s ≠ "")
    (hb : st.core.currentBowler = some b) (hb0 : b ≠ "")
    (ht : type = "wide" ∨ type = "noball") :
    isErr (extras st type er) = false ∧
    (outState (extras st type er)).core.score = st.core.score + 1 + er.getD 0 ∧
    (outState (extras st type er)).core.balls = st.core.balls ∧
    bowlerConcededL (outState (extras st type er)).core.bowlers b =
      bowlerConcededL st.core.bowlers b + 1 + er.getD 0 ∧
    playerRunsL (outState (extras st type er)).core.players s =
      playerRunsL st.core.players s + (if type = "noball" then er.getD 0 else 0) ∧
    bowlerBallsL (outState (extras st type er)).core.bowlers b =
      bowlerBallsL st.core.bowlers b + (if type = "wide" then 1 else 0) := by
  rcases ht with rfl | rfl
  · unfold extras
    simp only [hms, hanb, hanw, takeSnapshot_core, hb, hb0, hs, hs0, Bool.not_true,
      Bool.false_eq_true, if_false, chargeBowler, pushLog, swapStrike, ensureBowlerExists,
      modBowler, ensurePlayerExists, modPlayer, noballExtrasCore, wideExtrasCore,
      noballCredit, wideBump, String.reduceEq, reduceIte, ne_eq,
      not_false_eq_true, not_true_eq_false, false_and, and_false, true_and, and_true,
      or_self, false_or, or_false, add_zero, if_true]
    simp only [finishScoring_isErr, finishScoring_score, finishScoring_balls,
      finishScoring_players, finishScoring_bowlers]
    refine ⟨trivial, ?_, ?_, ?_, ?_, ?_⟩
    · simp [apply_ite Core.score]
    · simp [apply_ite Core.balls]
    · simp only [apply_ite Core.bowlers, ite_self]
      rw [(bowler_bump_effect _ b hb0).1, (bowler_charge_effect _ b _ hb0).1,
        (bowler_charge_effect _ b _ hb0).1]
    · simp [apply_ite Core.players]
    · simp only [apply_ite Core.bowlers, ite_self]
      rw [(bowler_bump_effect _ b hb0).2, (bowler_charge_effect _ b _ hb0).2,
        (bowler_charge_effect _ b _ hb0).2]
  · unfold extras
    simp only [hms, hanb, hanw, takeSnapshot_core, hb, hb0, hs, hs0, Bool.not_true,
      Bool.false_eq_true, if_false, chargeBowler, pushLog, swapStrike, ensureBowlerExists,
      modBowler, ensurePlayerExists, modPlayer, noballExtrasCore, wideExtrasCore,
      noballCredit, wideBump, String.reduceEq, reduceIte, ne_eq,
      not_false_eq_true, not_true_eq_false, false_and, and_false, true_and, and_true,
      or_self, false_or, or_false, add_zero, if_true]
    simp only [finishScoring_isErr, finishScoring_score, finishScoring_balls,
      finishScoring_players, finishScoring_bowlers]
    refine ⟨trivial, ?_, ?_, ?_, ?_, ?_⟩
    · simp [apply_ite Core.score]
    · simp [apply_ite Core.balls]
    · simp only [apply_ite Core.bowlers, ite_self]
      rw [(bowler_charge_effect _ b _ hb0).1, (bowler_charge_effect _ b _ hb0).1]
    · simp only [apply_ite Core.players, ite_self]
      rw [player_credit_effect _ s _ hs0]
    · simp only [apply_ite Core.bowlers, ite_self]
      rw [(bowler_charge_effect _ b _ hb0).2, (bowler_charge_effect _ b _ hb0).2]

/-- Claim C8 witness: the theorem at the concrete live state for a wide
with 2 extra runs. -/
theorem c8_witness :
    isErr (extras demoLive "wide" (some 2)) = false ∧
    (outState (extras demoLive "wide" (some 2))).core.score =
      demoLive.core.score + 1 + (some (2 : Int)).getD 0 ∧
    (outState (extras demoLive "wide" (some 2))).core.balls = demoLive.core.balls ∧
    bowlerConcededL (outState (extras demoLive "wide" (some 2))).core.bowlers "C" =
      bowlerConcededL demoLive.core.bowlers "C" + 1 + (some (2 : Int)).getD 0 ∧
    playerRunsL (outState (extras demoLive "wide" (some 2))).core.players "A" =
      playerRunsL demoLive.core.players "A" +
        (if "wide" = "noball" then (some (2 : Int)).getD 0 else 0) ∧
    bowlerBallsL (outState (extras demoLive "wide" (some 2))).core.bowlers "C" =
      bowlerBallsL demoLive.core.bowlers "C" + (if "wide" = "wide" then 1 else 0) :=
  c8_extras_effects demoLive "wide" (some 2) "A" "C" rfl rfl rfl rfl (by decide) rfl
    (by decide) (Or.inl rfl)

/-! ### Claim C5: six consecutive singles -/

/-- Computation of `parseInt("1")`. -/
theorem jsParseInt_one : jsParseInt "1" = some 1 := by decide

/-- One is not negative (used to pass the run-value validation). -/
theorem one_not_neg : ((1 : Int) < 0) = False := by decide

/-- One is odd in the JS remainder sense. -/
theorem jsMod_one_two : jsMod 1 2 = 1 := by decide

/-- Outside innings 2 the scoring tail is a plain success. -/
theorem finishScoring_not2 (c : Core) (h : List Core) (hi : c.innings ≠ 2) :
    finishScoring c h = .ok ⟨c, h⟩ := by
  unfold finishScoring checkForMatchEnd
  rw [if_pos hi]

/-- When the in-innings-2 end check fires, it preserves the score, the
counters, the batsmen, the bowler and the pause bookkeeping, and pauses
the match. -/
theorem checkForMatchEnd_ended_more (c c2 : Core) (h : checkForMatchEnd c = .ended c2) :
    c2.score = c.score ∧ c2.balls = c.balls ∧ c2.striker = c.striker ∧
    c2.nonStriker = c.nonStriker ∧ c2.currentBowler = c.currentBowler ∧
    c2.awaitingNewBatsman = c.awaitingNewBatsman ∧
    c2.awaitingNewBowler = c.awaitingNewBowler ∧
    c2.lastManStandingMode = c.lastManStandingMode ∧
    c2.lastOverBowler = c.lastOverBowler ∧ c2.matchStarted = false := by
  simp only [checkForMatchEnd] at h
  repeat' split at h
  all_goals first
    | exact EndCheck.noConfusion h
    | (injection h with h2; subst h2;
       exact ⟨rfl, rfl, rfl, rfl, rfl, rfl, rfl, rfl, rfl, rfl⟩)

/-- A successful scoring tail preserves the score, the counters, the
batsmen, the bowler and the pause bookkeeping, whether or not the match
ended; a paused input stays paused. -/
theorem finishScoring_ok_fields (c : Core) (hs : List Core) (st2 : MatchState)
    (h : finishScoring c hs = .ok st2) :
    st2.core.score = c.score ∧ st2.core.balls = c.balls ∧
    st2.core.striker = c.striker ∧ st2.core.nonStriker = c.nonStriker ∧
    st2.core.currentBowler = c.currentBowler ∧
    st2.core.awaitingNewBatsman = c.awaitingNewBatsman ∧
    st2.core.awaitingNewBowler = c.awaitingNewBowler ∧
    st2.core.lastManStandingMode = c.lastManStandingMode ∧
    st2.core.lastOverBowler = c.lastOverBowler ∧
    (c.matchStarted = false → st2.core.matchStarted = false) := by
  unfold finishScoring at h
  cases hE : checkForMatchEnd c with
  | notEnded =>
    rw [hE] at h
    injection h with h2
    subst h2
    exact ⟨rfl, rfl, rfl, rfl, rfl, rfl, rfl, rfl, rfl, fun hm => hm⟩
  | fault =>
    rw [hE] at h
    exact Outcome.noConfusion h
  | ended c2 =>
    rw [hE] at h
    injection h with h2
    subst h2
    obtain ⟨m1, m2, m3, m4, m5, m6, m7, m8, m9, m10⟩ := checkForMatchEnd_ended_more c c2 hE
    exact ⟨m1, m2, m3, m4, m5, m6, m7, m8, m9, fun hm => m10⟩

/-- Inversion of the sequential composition: a successful chain means
the first call succeeded and the rest ran from its result. -/
theorem okBind_ok (o : Outcome) (f : MatchState → Outcome) (s : MatchState)
    (h : okBind o f = .ok s) : ∃ t, o = .ok t ∧ f t = .ok s := by
  cases o with
  | ok t => exact ⟨t, rfl, h⟩
  | err t => exact Outcome.noConfusion h
  | fault t => exact Outcome.noConfusion h

/-- An accepted run submission implies the match was live: the first
guard rejects a paused match. -/
theorem recordRun_ok_started (st st2 : MatchState) (v : String)
    (h : recordRun st v = .ok st2) : st.core.matchStarted = true := by
  cases hb : st.core.matchStarted with
  | true => rfl
  | false =>
    unfold recordRun at h
    rw [hb] at h
    simp only [Bool.not_false, eq_self_iff_true, if_true, ite_true] at h
    exact Outcome.noConfusion h

/-- One accepted single that does not end the over, in either innings:
the ball and score counters go up by one and the strike rotates (a
possible match-end firing on this ball keeps every listed field). -/
theorem recordRun_one (st st2 : MatchState) (x y b : String)
    (hms : st.core.matchStarted = true)
    (hanb : st.core.awaitingNewBatsman = false)
    (hanw : st.core.awaitingNewBowler = false)
    (hsx : st.core.striker = some x) (hx0 : x ≠ "")
    (hny : st.core.nonStriker = some y)
    (hcb : st.core.currentBowler = some b) (hb0 : b ≠ "")
    (hlms : st.core.lastManStandingMode = false)
    (hmod : (st.core.balls + 1) % 6 ≠ 0)
    (h : recordRun st "1" = .ok st2) :
    st2.core.awaitingNewBatsman = false ∧
    st2.core.awaitingNewBowler = false ∧
    st2.core.striker = some y ∧
    st2.core.nonStriker = some x ∧
    st2.core.currentBowler = some b ∧
    st2.core.lastManStandingMode = false ∧
    st2.core.balls = st.core.balls + 1 ∧
    st2.core.score = st.core.score + 1 := by
  unfold recordRun at h
  simp only [hms, hanb, hanw, hsx, hx0, hcb, hb0, jsParseInt_one, one_not_neg,
    Bool.not_true, Bool.false_eq_true, if_false, ne_eq, not_false_eq_true,
    not_true_eq_false, false_and, and_false, true_and, and_true, or_self, false_or,
    or_false, eq_self_iff_true, ite_false, ite_true, if_true] at h
  have hc : (runScoringCore st.core x b 1).awaitingNewBatsman = false ∧
      (runScoringCore st.core x b 1).awaitingNewBowler = false ∧
      (runScoringCore st.core x b 1).striker = some y ∧
      (runScoringCore st.core x b 1).nonStriker = some x ∧
      (runScoringCore st.core x b 1).currentBowler = some b ∧
      (runScoringCore st.core x b 1).lastManStandingMode = false ∧
      (runScoringCore st.core x b 1).balls = st.core.balls + 1 ∧
      (runScoringCore st.core x b 1).score = st.core.score + 1 := by
    simp only [runScoringCore, pushLog, swapStrike, ensurePlayerExists, modPlayer,
      ensureBowlerExists, modBowler, jsMod_one_two, hlms, hmod, hsx, hny, hcb, hanb, hanw,
      Bool.not_true, Bool.not_false, Bool.false_eq_true, if_false, if_true, ne_eq,
      not_false_eq_true, not_true_eq_false, false_and, and_false, true_and, and_true,
      or_self, false_or, or_false, eq_self_iff_true, ite_false, ite_true, and_self]
  obtain ⟨fsc, fba, fst, fns, fcb, fab, faw, flm, flo, fms⟩ :=
    finishScoring_ok_fields _ _ _ h
  obtain ⟨g1, g2, g3, g4, g5, g6, g7, g8⟩ := hc
  exact ⟨fab.trans g1, faw.trans g2, fst.trans g3, fns.trans g4, fcb.trans g5,
    flm.trans g6, fba.trans g7, fsc.trans g8⟩

/-- One accepted single on the last ball of the over, in either innings:
the odd-run rotation and the over-end rotation cancel, the bowler pause
is set and the match is paused (by the over end, or additionally by a
match-end firing). -/
theorem recordRun_one_over (st st2 : MatchState) (x y b : String)
    (hms : st.core.matchStarted = true)
    (hanb : st.core.awaitingNewBatsman = false)
    (hanw : st.core.awaitingNewBowler = false)
    (hsx : st.core.striker = some x) (hx0 : x ≠ "")
    (hny : st.core.nonStriker = some y)
    (hcb : st.core.currentBowler = some b) (hb0 : b ≠ "")
    (hlms : st.core.lastManStandingMode = false)
    (hmod : (st.core.balls + 1) % 6 = 0)
    (h : recordRun st "1" = .ok st2) :
    st2.core.matchStarted = false ∧
    st2.core.awaitingNewBowler = true ∧
    st2.core.striker = some x ∧
    st2.core.nonStriker = some y ∧
    st2.core.lastOverBowler = some b ∧
    st2.core.balls = st.core.balls + 1 ∧
    st2.core.score = st.core.score + 1 := by
  unfold recordRun at h
  simp only [hms, hanb, hanw, hsx, hx0, hcb, hb0, jsParseInt_one, one_not_neg,
    Bool.not_true, Bool.false_eq_true, if_false, ne_eq, not_false_eq_true,
    not_true_eq_false, false_and, and_false, true_and, and_true, or_self, false_or,
    or_false, eq_self_iff_true, ite_false, ite_true, if_true] at h
  have hc : (runScoringCore st.core x b 1).matchStarted = false ∧
      (runScoringCore st.core x b 1).awaitingNewBowler = true ∧
      (runScoringCore st.core x b 1).striker = some x ∧
      (runScoringCore st.core x b 1).nonStriker = some y ∧
      (runScoringCore st.core x b 1).lastOverBowler = some b ∧
      (runScoringCore st.core x b 1).balls = st.core.balls + 1 ∧
      (runScoringCore st.core x b 1).score = st.core.score + 1 := by
    simp only [runScoringCore, pushLog, swapStrike, ensurePlayerExists, modPlayer,
      ensureBowlerExists, modBowler, jsMod_one_two, hlms, hmod, hsx, hny, hcb, hanb, hanw,
      Bool.not_true, Bool.not_false, Bool.false_eq_true, if_false, if_true, ne_eq,
      not_false_eq_true, not_true_eq_false, false_and, and_false, true_and, and_true,
      or_self, false_or, or_false, eq_self_iff_true, ite_false, ite_true, and_self]
  obtain ⟨fsc, fba, fst, fns, fcb, fab, faw, flm, flo, fms⟩ :=
    finishScoring_ok_fields _ _ _ h
  obtain ⟨g1, g2, g3, g4, g5, g6, g7⟩ := hc
  exact ⟨fms g1, faw.trans g2, fst.trans g3, fns.trans g4, flo.trans g5,
    fba.trans g6, fsc.trans g7⟩

/-- Claim C5 counterexample: from the concrete live state with striker
"A" and non-striker "B" at the start of an over, six accepted
RecordRun(1) calls leave "B" — not the original striker "A" — on
strike: the six odd-run rotations plus the over-end rotation make seven
swaps, a net swap. -/
theorem c5_counterexample :
    isOk (run6From demoLive) = true ∧
    demoLive.core.striker = some "A" ∧
    c5post.core.striker = some "B" ∧
    c5post.core.striker ≠ demoLive.core.striker := by decide

/-- Claim C5 (amended): from a live state at the start of an over —
in either innings — with both batsmen and a bowler set and
Last-Man-Standing inactive, six consecutive accepted RecordRun(1) calls
yield: the legal-ball counter increased by 6, awaitingNewBowler = true,
the team score increased by 6, the match paused, and the striker being
the batsman who was NOT on strike before the six calls (the pre-over
non-striker), with the original striker at the other end. -/
theorem c5_six_singles (st st6 : MatchState) (x y b : String)
    (hms : st.core.matchStarted = true)
    (hanb : st.core.awaitingNewBatsman = false)
    (hanw : st.core.awaitingNewBowler = false)
    (hsx : st.core.striker = some x) (hx0 : x ≠ "")
    (hny : st.core.nonStriker = some y) (hy0 : y ≠ "")
    (hcb : st.core.currentBowler = some b) (hb0 : b ≠ "")
    (hlms : st.core.lastManStandingMode = false)
    (hballs : st.core.balls % 6 = 0)
    (h6 : run6From st = .ok st6) :
    st6.core.balls = st.core.balls + 6 ∧
    st6.core.awaitingNewBowler = true ∧
    st6.core.score = st.core.score + 6 ∧
    st6.core.matchStarted = false ∧
    st6.core.striker = some y ∧
    st6.core.nonStriker = some x := by
  unfold run6From at h6
  obtain ⟨s1, e1, h6⟩ := okBind_ok _ _ _ h6
  try simp only [] at h6
  obtain ⟨s2, e2, h6⟩ := okBind_ok _ _ _ h6
  try simp only [] at h6
  obtain ⟨s3, e3, h6⟩ := okBind_ok _ _ _ h6
  try simp only [] at h6
  obtain ⟨s4, e4, h6⟩ := okBind_ok _ _ _ h6
  try simp only [] at h6
  obtain ⟨s5, e5, h6⟩ := okBind_ok _ _ _ h6
  try simp only [] at h6
  obtain ⟨a1, b1, c1, d1, f1, g1, i1, j1⟩ :=
    recordRun_one st s1 x y b hms hanb hanw hsx hx0 hny hcb hb0 hlms (by omega) e1
  obtain ⟨a2, b2, c2, d2, f2, g2, i2, j2⟩ :=
    recordRun_one s1 s2 y x b (recordRun_ok_started _ _ _ e2) a1 b1 c1 hy0 d1 f1 hb0 g1
      (by rw [i1]; omega) e2
  obtain ⟨a3, b3, c3, d3, f3, g3, i3, j3⟩ :=
    recordRun_one s2 s3 x y b (recordRun_ok_started _ _ _ e3) a2 b2 c2 hx0 d2 f2 hb0 g2
      (by rw [i2, i1]; omega) e3
  obtain ⟨a4, b4, c4, d4, f4, g4, i4, j4⟩ :=
    recordRun_one s3 s4 y x b (recordRun_ok_started _ _ _ e4) a3 b3 c3 hy0 d3 f3 hb0 g3
      (by rw [i3, i2, i1]; omega) e4
  obtain ⟨a5, b5, c5, d5, f5, g5, i5, j5⟩ :=
    recordRun_one s4 s5 x y b (recordRun_ok_started _ _ _ e5) a4 b4 c4 hx0 d4 f4 hb0 g4
      (by rw [i4, i3, i2, i1]; omega) e5
  obtain ⟨qms, qanw, qstr, qnstr, qlob, qb, qsc⟩ :=
    recordRun_one_over s5 st6 y x b (recordRun_ok_started _ _ _ h6) a5 b5 c5 hy0 d5 f5
      hb0 g5 (by rw [i5, i4, i3, i2, i1]; omega) h6
  refine ⟨by omega, qanw, by omega, qms, qstr, qnstr⟩

/-- Claim C5 witness: the amended theorem at the concrete live state,
with the six accepted calls evaluated. -/
theorem c5_witness :
    c5post.core.balls = demoLive.core.balls + 6 ∧
    c5post.core.awaitingNewBowler = true ∧
    c5post.core.score = demoLive.core.score + 6 ∧
    c5post.core.matchStarted = false ∧
    c5post.core.striker = some "B" ∧
    c5post.core.nonStriker = some "A" :=
  c5_six_singles demoLive c5post "A" "B" "C" rfl rfl rfl rfl (by decide) rfl (by decide)
    rfl (by decide) rfl rfl (by decide)

/-! ### Claim C2: the undo round-trip -/

/-- A successful scoring tail carries the history it was given. -/
theorem finishScoring_hist (c : Core) (hs : List Core) (st2 : MatchState)
    (h : finishScoring c hs = .ok st2) : st2.stateHistory = hs := by
  unfold finishScoring at h
  repeat' split at h
  all_goals first
    | exact Outcome.noConfusion h
    | exact (congrArg MatchState.stateHistory (Outcome.ok.inj h)).symm

/-- What `undoAction` produces from any state whose history is exactly
the pre-event history with one snapshot pushed: every core field of the
pre-event state is restored, except that the restored log loses its last
line and gains the undo-marker line, and the history equals the
pre-event stack (minus its oldest entry when the push evicted one). -/
theorem undo_after_snapshot (st st2 : MatchState)
    (hh : st2.stateHistory = (takeSnapshot st).stateHistory) :
    undoAction st2 = .ok ⟨{st.core with log := st.core.log.dropLast ++ ["Last action UNDONE"]},
      if st.stateHistory.length + 1 > maxHistory then st.stateHistory.tail
      else st.stateHistory⟩ := by
  unfold undoAction
  rw [hh]
  simp only [takeSnapshot]
  by_cases hlen : (st.stateHistory ++ [st.core]).length > maxHistory
  · rw [if_pos hlen]
    have hlen2 : st.stateHistory.length + 1 > maxHistory := by simpa using hlen
    rw [if_pos hlen2]
    obtain ⟨a, as, hcons⟩ : ∃ a as, st.stateHistory = a :: as := by
      cases h0 : st.stateHistory with
      | nil => rw [h0] at hlen2; simp [maxHistory] at hlen2
      | cons a as => exact ⟨a, as, rfl⟩
    rw [hcons]
    simp only [List.cons_append, List.tail_cons, List.getLast?_concat, List.dropLast_concat]
    by_cases hl : st.core.log.isEmpty
    · have hnil : st.core.log = [] := List.isEmpty_iff.mp hl
      rw [if_pos hl]
      simp [pushLog, hnil]
    · rw [if_neg hl]
      simp [pushLog]
  · rw [if_neg hlen]
    have hlen2 : ¬(st.stateHistory.length + 1 > maxHistory) := by simpa using hlen
    rw [if_neg hlen2]
    simp only [List.getLast?_concat, List.dropLast_concat]
    by_cases hl : st.core.log.isEmpty
    · have hnil : st.core.log = [] := List.isEmpty_iff.mp hl
      rw [if_pos hl]
      simp [pushLog, hnil]
    · rw [if_neg hl]
      simp [pushLog]

/-- Claim C2 counterexample: an accepted wide from a state whose log has
one line and whose history is empty, followed by Undo, yields a log of
exactly ["Last action UNDONE"] — the pre-event line was dropped and the
undo marker appended — and a history equal to the pre-event one (not
shrunk by one), so the resulting state is not the pre-event state with
only the history shrunk and the log missing its last line. -/
theorem c2_counterexample :
    applyEvent [] c2demoPre .wideE = .ok c2demoPost ∧
    undoAction c2demoPost = .ok c2demoUndone ∧
    c2demoPre.core.log = ["opening ball"] ∧
    c2demoUndone.core.log = ["Last action UNDONE"] ∧
    c2demoPre.stateHistory = [] ∧
    c2demoUndone.stateHistory = [] ∧
    c2demoUndone ≠ ⟨{c2demoPre.core with log := c2demoPre.core.log.dropLast},
      c2demoPre.stateHistory.dropLast⟩ := by decide

set_option maxHeartbeats 4000000 in
/-- Claim C2 (amended): every accepted state-mutating event except
Undo, Reset and EndInnings-in-innings-2 (which takes no snapshot)
pushes exactly one snapshot; following it immediately with Undo yields
the pre-event state in every field with exactly these exceptions: the
log is the pre-event log with its last line removed and the line
"Last action UNDONE" appended, and the history stack equals the
pre-event stack (losing its oldest entry when the stack was at its cap
of 10 at the event). -/
theorem c2_undo_roundtrip (catalog : List String) (st : MatchState) (e : Event)
    (st2 : MatchState)
    (hu : e ≠ .undoE) (hr : e ≠ .resetE)
    (he : e = .endInningsE → st.core.innings ≠ 2)
    (h : applyEvent catalog st e = .ok st2) :
    undoAction st2 = .ok ⟨{st.core with log := st.core.log.dropLast ++ ["Last action UNDONE"]},
      if st.stateHistory.length + 1 > maxHistory then st.stateHistory.tail
      else st.stateHistory⟩ := by
  apply undo_after_snapshot st st2
  cases e with
  | undoE => exact absurd rfl hu
  | resetE => exact absurd rfl hr
  | endInningsE =>
    simp only [applyEvent] at h
    unfold endInnings at h
    rw [if_neg (he rfl)] at h
    repeat' split at h
    all_goals try simp only [] at h
    all_goals try repeat' split at h
    all_goals first
      | exact Outcome.noConfusion h
      | exact finishScoring_hist _ _ _ h
      | exact (congrArg MatchState.stateHistory (Outcome.ok.inj h)).symm
  | createTeamsE a b =>
    simp only [applyEvent] at h
    unfold createTeams at h
    repeat' split at h
    all_goals try simp only [] at h
    all_goals try repeat' split at h
    all_goals first
      | exact Outcome.noConfusion h
      | exact finishScoring_hist _ _ _ h
      | exact (congrArg MatchState.stateHistory (Outcome.ok.inj h)).symm
  | setTeamsE bt s ns bw ov =>
    simp only [applyEvent] at h
    unfold setTeamsAndMatch at h
    repeat' split at h
    all_goals try simp only [] at h
    all_goals try repeat' split at h
    all_goals first
      | exact Outcome.noConfusion h
      | exact finishScoring_hist _ _ _ h
      | exact (congrArg MatchState.stateHistory (Outcome.ok.inj h)).symm
  | runE v =>
    simp only [applyEvent] at h
    unfold recordRun at h
    repeat' split at h
    all_goals try simp only [] at h
    all_goals try repeat' split at h
    all_goals first
      | exact Outcome.noConfusion h
      | exact finishScoring_hist _ _ _ h
      | exact (congrArg MatchState.stateHistory (Outcome.ok.inj h)).symm
  | wicketE t =>
    simp only [applyEvent] at h
    unfold recordWicket at h
    repeat' split at h
    all_goals try simp only [] at h
    all_goals try repeat' split at h
    all_goals first
      | exact Outcome.noConfusion h
      | exact finishScoring_hist _ _ _ h
      | exact (congrArg MatchState.stateHistory (Outcome.ok.inj h)).symm
  | newBatsmanE n =>
    simp only [applyEvent] at h
    unfold newBatsman at h
    repeat' split at h
    all_goals try simp only [] at h
    all_goals try repeat' split at h
    all_goals first
      | exact Outcome.noConfusion h
      | exact finishScoring_hist _ _ _ h
      | exact (congrArg MatchState.stateHistory (Outcome.ok.inj h)).symm
  | activateLMSE =>
    simp only [applyEvent] at h
    unfold activateLMS at h
    repeat' split at h
    all_goals try simp only [] at h
    all_goals try repeat' split at h
    all_goals first
      | exact Outcome.noConfusion h
      | exact finishScoring_hist _ _ _ h
      | exact (congrArg MatchState.stateHistory (Outcome.ok.inj h)).symm
  | wideE =>
    simp only [applyEvent] at h
    unfold recordWide at h
    repeat' split at h
    all_goals try simp only [] at h
    all_goals try repeat' split at h
    all_goals first
      | exact Outcome.noConfusion h
      | exact finishScoring_hist _ _ _ h
      | exact (congrArg MatchState.stateHistory (Outcome.ok.inj h)).symm
  | noballE =>
    simp only [applyEvent] at h
    unfold recordNoball at h
    repeat' split at h
    all_goals try simp only [] at h
    all_goals try repeat' split at h
    all_goals first
      | exact Outcome.noConfusion h
      | exact finishScoring_hist _ _ _ h
      | exact (congrArg MatchState.stateHistory (Outcome.ok.inj h)).symm
  | extrasE t er =>
    simp only [applyEvent] at h
    unfold extras at h
    repeat' split at h
    all_goals try simp only [] at h
    all_goals try repeat' split at h
    all_goals first
      | exact Outcome.noConfusion h
      | exact finishScoring_hist _ _ _ h
      | exact (congrArg MatchState.stateHistory (Outcome.ok.inj h)).symm
  | selectBowlerE bw =>
    simp only [applyEvent] at h
    unfold selectBowler at h
    repeat' split at h
    all_goals try simp only [] at h
    all_goals try repeat' split at h
    all_goals first
      | exact Outcome.noConfusion h
      | exact finishScoring_hist _ _ _ h
      | exact (congrArg MatchState.stateHistory (Outcome.ok.inj h)).symm
  | changeStrikeE a n =>
    simp only [applyEvent] at h
    unfold changeStrike at h
    repeat' split at h
    all_goals try simp only [] at h
    all_goals try repeat' split at h
    all_goals first
      | exact Outcome.noConfusion h
      | exact finishScoring_hist _ _ _ h
      | exact (congrArg MatchState.stateHistory (Outcome.ok.inj h)).symm

/-- Claim C2 witness: the amended theorem for an accepted wide from the
concrete live state. -/
theorem c2_witness :
    undoAction (outState (applyEvent [] demoLive .wideE)) =
      .ok ⟨{demoLive.core with log := demoLive.core.log.dropLast ++ ["Last action UNDONE"]},
        if demoLive.stateHistory.length + 1 > maxHistory then demoLive.stateHistory.tail
        else demoLive.stateHistory⟩ :=
  c2_undo_roundtrip [] demoLive .wideE (outState (applyEvent [] demoLive .wideE))
    (by decide) (by decide) (fun hx => Event.noConfusion hx) (by decide)

/-! ### Claim C9: target immutability in innings 2 -/

/-- The scoring tail preserves the chase target. -/
theorem finishScoring_target (c : Core) (h : List Core) :
    (outState (finishScoring c h)).core.target = c.target := by
  unfold finishScoring
  cases hE : checkForMatchEnd c with
  | notEnded => rfl
  | fault => rfl
  | ended c2 => exact (checkForMatchEnd_ended_fields c c2 hE).2.2.2.2.1

/-- The scoring tail preserves the frozen first-innings totals. -/
theorem finishScoring_inn1 (c : Core) (h : List Core) :
    (outState (finishScoring c h)).core.innings1Score = c.innings1Score := by
  unfold finishScoring
  cases hE : checkForMatchEnd c with
  | notEnded => rfl
  | fault => rfl
  | ended c2 => exact (checkForMatchEnd_ended_fields c c2 hE).2.2.2.2.2.1

/-- Projection of a success outcome. -/
theorem outState_ok (s : MatchState) : outState (.ok s) = s := rfl

/-- Projection of a rejection outcome. -/
theorem outState_err (s : MatchState) : outState (.err s) = s := rfl

/-- Projection of a fault outcome. -/
theorem outState_fault (s : MatchState) : outState (.fault s) = s := rfl

/-- Logging does not touch the chase target. -/
theorem pushLog_target (c : Core) (s : String) : (pushLog c s).target = c.target := rfl

/-- Logging does not touch the frozen first-innings totals. -/
theorem pushLog_inn1 (c : Core) (s : String) : (pushLog c s).innings1Score = c.innings1Score := rfl

/-- A player update does not touch the chase target. -/
theorem modPlayer_target (c : Core) (n : String) (f : Player → Player) :
    (modPlayer c n f).target = c.target := rfl

/-- A player update does not touch the frozen first-innings totals. -/
theorem modPlayer_inn1 (c : Core) (n : String) (f : Player → Player) :
    (modPlayer c n f).innings1Score = c.innings1Score := rfl

/-- A bowler update does not touch the chase target. -/
theorem modBowler_target (c : Core) (n : String) (f : Bowler → Bowler) :
    (modBowler c n f).target = c.target := rfl

/-- A bowler update does not touch the frozen first-innings totals. -/
theorem modBowler_inn1 (c : Core) (n : String) (f : Bowler → Bowler) :
    (modBowler c n f).innings1Score = c.innings1Score := rfl

/-- Roster insertion does not touch the chase target. -/
theorem ensurePlayerExists_target (c : Core) (n : String) :
    (ensurePlayerExists c n).target = c.target := rfl

/-- Roster insertion does not touch the frozen first-innings totals. -/
theorem ensurePlayerExists_inn1 (c : Core) (n : String) :
    (ensurePlayerExists c n).innings1Score = c.innings1Score := rfl

/-- Bowler-roster insertion does not touch the chase target. -/
theorem ensureBowlerExists_target (c : Core) (n : String) :
    (ensureBowlerExists c n).target = c.target := rfl

/-- Bowler-roster insertion does not touch the frozen first-innings totals. -/
theorem ensureBowlerExists_inn1 (c : Core) (n : String) :
    (ensureBowlerExists c n).innings1Score = c.innings1Score := rfl

/-- Charging the bowler does not touch the chase target. -/
theorem chargeBowler_target (c : Core) (r : Int) : (chargeBowler c r).target = c.target := rfl

/-- Charging the bowler does not touch the frozen first-innings totals. -/
theorem chargeBowler_inn1 (c : Core) (r : Int) :
    (chargeBowler c r).innings1Score = c.innings1Score := rfl

/-- Swapping the strike does not touch the chase target. -/
theorem swapStrike_target (c : Core) : (swapStrike c).target = c.target := rfl

/-- Swapping the strike does not touch the frozen first-innings totals. -/
theorem swapStrike_inn1 (c : Core) : (swapStrike c).innings1Score = c.innings1Score := rfl

set_option maxHeartbeats 1000000 in
/-- The run-scoring block preserves the chase target. -/
theorem runScoringCore_target (c0 : Core) (s b : String) (r : Int) :
    (runScoringCore c0 s b r).target = c0.target := by
  unfold runScoringCore
  lift_lets
  extract_lets a1 a2 a3 a4 a5 a6 a7 a8 a9
  repeat' split
  all_goals try simp only [pushLog_target, modPlayer_target, modBowler_target, ensurePlayerExists_target, ensureBowlerExists_target, chargeBowler_target, swapStrike_target, apply_ite Core.target, ite_self]
  all_goals try (unfold_let a9; simp only [pushLog_target, modPlayer_target, modBowler_target, ensurePlayerExists_target, ensureBowlerExists_target, chargeBowler_target, swapStrike_target, apply_ite Core.target, ite_self])
  all_goals try (unfold_let a8; simp only [pushLog_target, modPlayer_target, modBowler_target, ensurePlayerExists_target, ensureBowlerExists_target, chargeBowler_target, swapStrike_target, apply_ite Core.target, ite_self])
  all_goals try (unfold_let a7; simp only [pushLog_target, modPlayer_target, modBowler_target, ensurePlayerExists_target, ensureBowlerExists_target, chargeBowler_target, swapStrike_target, apply_ite Core.target, ite_self])
  all_goals try (unfold_let a6; simp only [pushLog_target, modPlayer_target, modBowler_target, ensurePlayerExists_target, ensureBowlerExists_target, chargeBowler_target, swapStrike_target, apply_ite Core.target, ite_self])
  all_goals try (unfold_let a5; simp only [pushLog_target, modPlayer_target, modBowler_target, ensurePlayerExists_target, ensureBowlerExists_target, chargeBowler_target, swapStrike_target, apply_ite Core.target, ite_self])
  all_goals try (unfold_let a4; simp only [pushLog_target, modPlayer_target, modBowler_target, ensurePlayerExists_target, ensureBowlerExists_target, chargeBowler_target, swapStrike_target, apply_ite Core.target, ite_self])
  all_goals try (unfold_let a3; simp only [pushLog_target, modPlayer_target, modBowler_target, ensurePlayerExists_target, ensureBowlerExists_target, chargeBowler_target, swapStrike_target, apply_ite Core.target, ite_self])
  all_goals try (unfold_let a2; simp only [pushLog_target, modPlayer_target, modBowler_target, ensurePlayerExists_target, ensureBowlerExists_target, chargeBowler_target, swapStrike_target, apply_ite Core.target, ite_self])
  all_goals try (unfold_let a1; simp only [pushLog_target, modPlayer_target, modBowler_target, ensurePlayerExists_target, ensureBowlerExists_target, chargeBowler_target, swapStrike_target, apply_ite Core.target, ite_self])
  all_goals rfl

set_option maxHeartbeats 1000000 in
/-- The run-scoring block preserves the frozen first-innings totals. -/
theorem runScoringCore_inn1 (c0 : Core) (s b : String) (r : Int) :
    (runScoringCore c0 s b r).innings1Score = c0.innings1Score := by
  unfold runScoringCore
  lift_lets
  extract_lets a1 a2 a3 a4 a5 a6 a7 a8 a9
  repeat' split
  all_goals try simp only [pushLog_inn1, modPlayer_inn1, modBowler_inn1, ensurePlayerExists_inn1, ensureBowlerExists_inn1, chargeBowler_inn1, swapStrike_inn1, apply_ite Core.innings1Score, ite_self]
  all_goals try (unfold_let a9; simp only [pushLog_inn1, modPlayer_inn1, modBowler_inn1, ensurePlayerExists_inn1, ensureBowlerExists_inn1, chargeBowler_inn1, swapStrike_inn1, apply_ite Core.innings1Score, ite_self])
  all_goals try (unfold_let a8; simp only [pushLog_inn1, modPlayer_inn1, modBowler_inn1, ensurePlayerExists_inn1, ensureBowlerExists_inn1, chargeBowler_inn1, swapStrike_inn1, apply_ite Core.innings1Score, ite_self])
  all_goals try (unfold_let a7; simp only [pushLog_inn1, modPlayer_inn1, modBowler_inn1, ensurePlayerExists_inn1, ensureBowlerExists_inn1, chargeBowler_inn1, swapStrike_inn1, apply_ite Core.innings1Score, ite_self])
  all_goals try (unfold_let a6; simp only [pushLog_inn1, modPlayer_inn1, modBowler_inn1, ensurePlayerExists_inn1, ensureBowlerExists_inn1, chargeBowler_inn1, swapStrike_inn1, apply_ite Core.innings1Score, ite_self])
  all_goals try (unfold_let a5; simp only [pushLog_inn1, modPlayer_inn1, modBowler_inn1, ensurePlayerExists_inn1, ensureBowlerExists_inn1, chargeBowler_inn1, swapStrike_inn1, apply_ite Core.innings1Score, ite_self])
  all_goals try (unfold_let a4; simp only [pushLog_inn1, modPlayer_inn1, modBowler_inn1, ensurePlayerExists_inn1, ensureBowlerExists_inn1, chargeBowler_inn1, swapStrike_inn1, apply_ite Core.innings1Score, ite_self])
  all_goals try (unfold_let a3; simp only [pushLog_inn1, modPlayer_inn1, modBowler_inn1, ensurePlayerExists_inn1, ensureBowlerExists_inn1, chargeBowler_inn1, swapStrike_inn1, apply_ite Core.innings1Score, ite_self])
  all_goals try (unfold_let a2; simp only [pushLog_inn1, modPlayer_inn1, modBowler_inn1, ensurePlayerExists_inn1, ensureBowlerExists_inn1, chargeBowler_inn1, swapStrike_inn1, apply_ite Core.innings1Score, ite_self])
  all_goals try (unfold_let a1; simp only [pushLog_inn1, modPlayer_inn1, modBowler_inn1, ensurePlayerExists_inn1, ensureBowlerExists_inn1, chargeBowler_inn1, swapStrike_inn1, apply_ite Core.innings1Score, ite_self])
  all_goals rfl

set_option maxHeartbeats 1000000 in
/-- The fall-of-wicket block preserves the chase target. -/
theorem wicketFallCore_target (c0 : Core) (s b t : String) :
    (wicketFallCore c0 s b t).target = c0.target := by
  unfold wicketFallCore
  lift_lets
  extract_lets a1 a2 a3 a4 a5
  repeat' split
  all_goals try simp only [pushLog_target, modPlayer_target, modBowler_target, ensurePlayerExists_target, ensureBowlerExists_target, chargeBowler_target, swapStrike_target, apply_ite Core.target, ite_self]
  all_goals try (unfold_let a5; simp only [pushLog_target, modPlayer_target, modBowler_target, ensurePlayerExists_target, ensureBowlerExists_target, chargeBowler_target, swapStrike_target, apply_ite Core.target, ite_self])
  all_goals try (unfold_let a4; simp only [pushLog_target, modPlayer_target, modBowler_target, ensurePlayerExists_target, ensureBowlerExists_target, chargeBowler_target, swapStrike_target, apply_ite Core.target, ite_self])
  all_goals try (unfold_let a3; simp only [pushLog_target, modPlayer_target, modBowler_target, ensurePlayerExists_target, ensureBowlerExists_target, chargeBowler_target, swapStrike_target, apply_ite Core.target, ite_self])
  all_goals try (unfold_let a2; simp only [pushLog_target, modPlayer_target, modBowler_target, ensurePlayerExists_target, ensureBowlerExists_target, chargeBowler_target, swapStrike_target, apply_ite Core.target, ite_self])
  all_goals try (unfold_let a1; simp only [pushLog_target, modPlayer_target, modBowler_target, ensurePlayerExists_target, ensureBowlerExists_target, chargeBowler_target, swapStrike_target, apply_ite Core.target, ite_self])
  all_goals rfl

set_option maxHeartbeats 1000000 in
/-- The fall-of-wicket block preserves the frozen first-innings totals. -/
theorem wicketFallCore_inn1 (c0 : Core) (s b t : String) :
    (wicketFallCore c0 s b t).innings1Score = c0.innings1Score := by
  unfold wicketFallCore
  lift_lets
  extract_lets a1 a2 a3 a4 a5
  repeat' split
  all_goals try simp only [pushLog_inn1, modPlayer_inn1, modBowler_inn1, ensurePlayerExists_inn1, ensureBowlerExists_inn1, chargeBowler_inn1, swapStrike_inn1, apply_ite Core.innings1Score, ite_self]
  all_goals try (unfold_let a5; simp only [pushLog_inn1, modPlayer_inn1, modBowler_inn1, ensurePlayerExists_inn1, ensureBowlerExists_inn1, chargeBowler_inn1, swapStrike_inn1, apply_ite Core.innings1Score, ite_self])
  all_goals try (unfold_let a4; simp only [pushLog_inn1, modPlayer_inn1, modBowler_inn1, ensurePlayerExists_inn1, ensureBowlerExists_inn1, chargeBowler_inn1, swapStrike_inn1, apply_ite Core.innings1Score, ite_self])
  all_goals try (unfold_let a3; simp only [pushLog_inn1, modPlayer_inn1, modBowler_inn1, ensurePlayerExists_inn1, ensureBowlerExists_inn1, chargeBowler_inn1, swapStrike_inn1, apply_ite Core.innings1Score, ite_self])
  all_goals try (unfold_let a2; simp only [pushLog_inn1, modPlayer_inn1, modBowler_inn1, ensurePlayerExists_inn1, ensureBowlerExists_inn1, chargeBowler_inn1, swapStrike_inn1, apply_ite Core.innings1Score, ite_self])
  all_goals try (unfold_let a1; simp only [pushLog_inn1, modPlayer_inn1, modBowler_inn1, ensurePlayerExists_inn1, ensureBowlerExists_inn1, chargeBowler_inn1, swapStrike_inn1, apply_ite Core.innings1Score, ite_self])
  all_goals rfl

/-- The Last-Man-Standing innings end preserves the chase target. -/
theorem wicketEndLMS_target (c0 : Core) :
    (wicketEndLMS c0).target = c0.target := by
  rfl

/-- The Last-Man-Standing innings end preserves the frozen first-innings totals. -/
theorem wicketEndLMS_inn1 (c0 : Core) :
    (wicketEndLMS c0).innings1Score = c0.innings1Score := by
  rfl

/-- The new-batsman pause preserves the chase target. -/
theorem wicketPause_target (c0 : Core) :
    (wicketPause c0).target = c0.target := by
  unfold wicketPause
  lift_lets
  extract_lets a1
  repeat' split
  all_goals rfl

/-- The new-batsman pause preserves the frozen first-innings totals. -/
theorem wicketPause_inn1 (c0 : Core) :
    (wicketPause c0).innings1Score = c0.innings1Score := by
  unfold wicketPause
  lift_lets
  extract_lets a1
  repeat' split
  all_goals rfl

/-- The wide bowler tallies preserve the chase target. -/
theorem wideTally_target (c0 : Core) :
    (wideTally c0).target = c0.target := by
  unfold wideTally
  repeat' split
  all_goals rfl

/-- The wide bowler tallies preserve the frozen first-innings totals. -/
theorem wideTally_inn1 (c0 : Core) :
    (wideTally c0).innings1Score = c0.innings1Score := by
  unfold wideTally
  repeat' split
  all_goals rfl

/-- The no-ball striker credit preserves the chase target. -/
theorem noballCredit_target (c0 : Core) (e : Int) :
    (noballCredit c0 e).target = c0.target := by
  unfold noballCredit
  repeat' split
  all_goals rfl

/-- The no-ball striker credit preserves the frozen first-innings totals. -/
theorem noballCredit_inn1 (c0 : Core) (e : Int) :
    (noballCredit c0 e).innings1Score = c0.innings1Score := by
  unfold noballCredit
  repeat' split
  all_goals rfl

/-- The wide ball-tally bump preserves the chase target. -/
theorem wideBump_target (c0 : Core) :
    (wideBump c0).target = c0.target := by
  unfold wideBump
  repeat' split
  all_goals rfl

/-- The wide ball-tally bump preserves the frozen first-innings totals. -/
theorem wideBump_inn1 (c0 : Core) :
    (wideBump c0).innings1Score = c0.innings1Score := by
  unfold wideBump
  repeat' split
  all_goals rfl

set_option maxHeartbeats 1000000 in
/-- The no-ball arm of extras preserves the chase target. -/
theorem noballExtrasCore_target (c0 : Core) (e te : Int) :
    (noballExtrasCore c0 e te).target = c0.target := by
  unfold noballExtrasCore
  lift_lets
  extract_lets a1 a2 a3 a4
  repeat' split
  all_goals try simp only [pushLog_target, modPlayer_target, modBowler_target, ensurePlayerExists_target, ensureBowlerExists_target, chargeBowler_target, swapStrike_target, apply_ite Core.target, ite_self, noballCredit_target]
  all_goals try (unfold_let a4; simp only [pushLog_target, modPlayer_target, modBowler_target, ensurePlayerExists_target, ensureBowlerExists_target, chargeBowler_target, swapStrike_target, apply_ite Core.target, ite_self, noballCredit_target])
  all_goals try (unfold_let a3; simp only [pushLog_target, modPlayer_target, modBowler_target, ensurePlayerExists_target, ensureBowlerExists_target, chargeBowler_target, swapStrike_target, apply_ite Core.target, ite_self, noballCredit_target])
  all_goals try (unfold_let a2; simp only [pushLog_target, modPlayer_target, modBowler_target, ensurePlayerExists_target, ensureBowlerExists_target, chargeBowler_target, swapStrike_target, apply_ite Core.target, ite_self, noballCredit_target])
  all_goals try (unfold_let a1; simp only [pushLog_target, modPlayer_target, modBowler_target, ensurePlayerExists_target, ensureBowlerExists_target, chargeBowler_target, swapStrike_target, apply_ite Core.target, ite_self, noballCredit_target])
  all_goals rfl

set_option maxHeartbeats 1000000 in
/-- The no-ball arm of extras preserves the frozen first-innings totals. -/
theorem noballExtrasCore_inn1 (c0 : Core) (e te : Int) :
    (noballExtrasCore c0 e te).innings1Score = c0.innings1Score := by
  unfold noballExtrasCore
  lift_lets
  extract_lets a1 a2 a3 a4
  repeat' split
  all_goals try simp only [pushLog_inn1, modPlayer_inn1, modBowler_inn1, ensurePlayerExists_inn1, ensureBowlerExists_inn1, chargeBowler_inn1, swapStrike_inn1, apply_ite Core.innings1Score, ite_self, noballCredit_inn1]
  all_goals try (unfold_let a4; simp only [pushLog_inn1, modPlayer_inn1, modBowler_inn1, ensurePlayerExists_inn1, ensureBowlerExists_inn1, chargeBowler_inn1, swapStrike_inn1, apply_ite Core.innings1Score, ite_self, noballCredit_inn1])
  all_goals try (unfold_let a3; simp only [pushLog_inn1, modPlayer_inn1, modBowler_inn1, ensurePlayerExists_inn1, ensureBowlerExists_inn1, chargeBowler_inn1, swapStrike_inn1, apply_ite Core.innings1Score, ite_self, noballCredit_inn1])
  all_goals try (unfold_let a2; simp only [pushLog_inn1, modPlayer_inn1, modBowler_inn1, ensurePlayerExists_inn1, ensureBowlerExists_inn1, chargeBowler_inn1, swapStrike_inn1, apply_ite Core.innings1Score, ite_self, noballCredit_inn1])
  all_goals try (unfold_let a1; simp only [pushLog_inn1, modPlayer_inn1, modBowler_inn1, ensurePlayerExists_inn1, ensureBowlerExists_inn1, chargeBowler_inn1, swapStrike_inn1, apply_ite Core.innings1Score, ite_self, noballCredit_inn1])
  all_goals rfl

set_option maxHeartbeats 1000000 in
/-- The wide arm of extras preserves the chase target. -/
theorem wideExtrasCore_target (c0 : Core) (e te : Int) :
    (wideExtrasCore c0 e te).target = c0.target := by
  unfold wideExtrasCore
  lift_lets
  extract_lets a1 a2 a3 a4
  repeat' split
  all_goals try simp only [pushLog_target, modPlayer_target, modBowler_target, ensurePlayerExists_target, ensureBowlerExists_target, chargeBowler_target, swapStrike_target, apply_ite Core.target, ite_self, wideBump_target]
  all_goals try (unfold_let a4; simp only [pushLog_target, modPlayer_target, modBowler_target, ensurePlayerExists_target, ensureBowlerExists_target, chargeBowler_target, swapStrike_target, apply_ite Core.target, ite_self, wideBump_target])
  all_goals try (unfold_let a3; simp only [pushLog_target, modPlayer_target, modBowler_target, ensurePlayerExists_target, ensureBowlerExists_target, chargeBowler_target, swapStrike_target, apply_ite Core.target, ite_self, wideBump_target])
  all_goals try (unfold_let a2; simp only [pushLog_target, modPlayer_target, modBowler_target, ensurePlayerExists_target, ensureBowlerExists_target, chargeBowler_target, swapStrike_target, apply_ite Core.target, ite_self, wideBump_target])
  all_goals try (unfold_let a1; simp only [pushLog_target, modPlayer_target, modBowler_target, ensurePlayerExists_target, ensureBowlerExists_target, chargeBowler_target, swapStrike_target, apply_ite Core.target, ite_self, wideBump_target])
  all_goals rfl

set_option maxHeartbeats 1000000 in
/-- The wide arm of extras preserves the frozen first-innings totals. -/
theorem wideExtrasCore_inn1 (c0 : Core) (e te : Int) :
    (wideExtrasCore c0 e te).innings1Score = c0.innings1Score := by
  unfold wideExtrasCore
  lift_lets
  extract_lets a1 a2 a3 a4
  repeat' split
  all_goals try simp only [pushLog_inn1, modPlayer_inn1, modBowler_inn1, ensurePlayerExists_inn1, ensureBowlerExists_inn1, chargeBowler_inn1, swapStrike_inn1, apply_ite Core.innings1Score, ite_self, wideBump_inn1]
  all_goals try (unfold_let a4; simp only [pushLog_inn1, modPlayer_inn1, modBowler_inn1, ensurePlayerExists_inn1, ensureBowlerExists_inn1, chargeBowler_inn1, swapStrike_inn1, apply_ite Core.innings1Score, ite_self, wideBump_inn1])
  all_goals try (unfold_let a3; simp only [pushLog_inn1, modPlayer_inn1, modBowler_inn1, ensurePlayerExists_inn1, ensureBowlerExists_inn1, chargeBowler_inn1, swapStrike_inn1, apply_ite Core.innings1Score, ite_self, wideBump_inn1])
  all_goals try (unfold_let a2; simp only [pushLog_inn1, modPlayer_inn1, modBowler_inn1, ensurePlayerExists_inn1, ensureBowlerExists_inn1, chargeBowler_inn1, swapStrike_inn1, apply_ite Core.innings1Score, ite_self, wideBump_inn1])
  all_goals try (unfold_let a1; simp only [pushLog_inn1, modPlayer_inn1, modBowler_inn1, ensurePlayerExists_inn1, ensureBowlerExists_inn1, chargeBowler_inn1, swapStrike_inn1, apply_ite Core.innings1Score, ite_self, wideBump_inn1])
  all_goals rfl

set_option maxHeartbeats 1000000 in
/-- The handler leaves `target` and `innings1Score` unchanged in innings 2. -/
theorem targets_endInnings (st : MatchState) (h2 : st.core.innings = 2) :
    (outState (endInnings st)).core.target = st.core.target ∧
    (outState (endInnings st)).core.innings1Score = st.core.innings1Score := by
  unfold endInnings
  rw [if_pos h2]
  repeat' split
  all_goals first
    | exact ⟨rfl, rfl⟩
    | (rename_i c2 heq
       have hf := checkForMatchEnd_ended_fields _ c2 heq
       exact ⟨hf.2.2.2.2.1.trans rfl, hf.2.2.2.2.2.1.trans rfl⟩)

set_option maxHeartbeats 1000000 in
/-- The handler leaves `target` and `innings1Score` unchanged. -/
theorem targets_setTeamsAndMatch (st : MatchState) (bt s ns bw : String) (ov : Option String) :
    (outState (setTeamsAndMatch st bt s ns bw ov)).core.target = st.core.target ∧
    (outState (setTeamsAndMatch st bt s ns bw ov)).core.innings1Score = st.core.innings1Score := by
  unfold setTeamsAndMatch
  repeat' split
  all_goals try simp only []
  all_goals try repeat' split
  all_goals exact ⟨rfl, rfl⟩

set_option maxHeartbeats 1000000 in
/-- The handler leaves `target` and `innings1Score` unchanged. -/
theorem targets_recordRun (st : MatchState) (v : String) :
    (outState (recordRun st v)).core.target = st.core.target ∧
    (outState (recordRun st v)).core.innings1Score = st.core.innings1Score := by
  unfold recordRun
  repeat' split
  all_goals first
    | exact ⟨(finishScoring_target _ _).trans (runScoringCore_target _ _ _ _),
        (finishScoring_inn1 _ _).trans (runScoringCore_inn1 _ _ _ _)⟩
    | exact ⟨rfl, rfl⟩

set_option maxHeartbeats 1000000 in
/-- The handler leaves `target` and `innings1Score` unchanged. -/
theorem targets_recordWicket (st : MatchState) (t : String) :
    (outState (recordWicket st t)).core.target = st.core.target ∧
    (outState (recordWicket st t)).core.innings1Score = st.core.innings1Score := by
  unfold recordWicket
  repeat' split
  all_goals try simp only []
  all_goals try repeat' split
  all_goals try simp only []
  all_goals try repeat' split
  all_goals simp only [outState_ok, outState_err, outState_fault, takeSnapshot_core,
    finishScoring_target, finishScoring_inn1, wicketPause_target, wicketPause_inn1,
    wicketEndLMS_target, wicketEndLMS_inn1, wicketFallCore_target, wicketFallCore_inn1,
    modPlayer_target, modPlayer_inn1, ensurePlayerExists_target, ensurePlayerExists_inn1,
    eq_self_iff_true, and_self]

set_option maxHeartbeats 1000000 in
/-- The handler leaves `target` and `innings1Score` unchanged. -/
theorem targets_newBatsman (st : MatchState) (n : String) :
    (outState (newBatsman st n)).core.target = st.core.target ∧
    (outState (newBatsman st n)).core.innings1Score = st.core.innings1Score := by
  unfold newBatsman
  repeat' split
  all_goals try simp only []
  all_goals try repeat' split
  all_goals try simp only []
  all_goals try repeat' split
  all_goals exact ⟨rfl, rfl⟩

set_option maxHeartbeats 1000000 in
/-- The handler leaves `target` and `innings1Score` unchanged. -/
theorem targets_activateLMS (st : MatchState) :
    (outState (activateLMS st)).core.target = st.core.target ∧
    (outState (activateLMS st)).core.innings1Score = st.core.innings1Score := by
  unfold activateLMS
  repeat' split
  all_goals try simp only []
  all_goals try repeat' split
  all_goals try simp only []
  all_goals try repeat' split
  all_goals exact ⟨rfl, rfl⟩

set_option maxHeartbeats 1000000 in
/-- The handler leaves `target` and `innings1Score` unchanged. -/
theorem targets_recordWide (st : MatchState) :
    (outState (recordWide st)).core.target = st.core.target ∧
    (outState (recordWide st)).core.innings1Score = st.core.innings1Score := by
  unfold recordWide
  repeat' split
  all_goals first
    | exact ⟨(finishScoring_target _ _).trans
          ((pushLog_target _ _).trans ((wideTally_target _).trans rfl)),
        (finishScoring_inn1 _ _).trans
          ((pushLog_inn1 _ _).trans ((wideTally_inn1 _).trans rfl))⟩
    | exact ⟨rfl, rfl⟩

set_option maxHeartbeats 1000000 in
/-- The handler leaves `target` and `innings1Score` unchanged. -/
theorem targets_recordNoball (st : MatchState) :
    (outState (recordNoball st)).core.target = st.core.target ∧
    (outState (recordNoball st)).core.innings1Score = st.core.innings1Score := by
  unfold recordNoball
  repeat' split
  all_goals first
    | exact ⟨(finishScoring_target _ _).trans rfl, (finishScoring_inn1 _ _).trans rfl⟩
    | exact ⟨rfl, rfl⟩

set_option maxHeartbeats 1000000 in
/-- The handler leaves `target` and `innings1Score` unchanged. -/
theorem targets_extras (st : MatchState) (t : String) (er : Option Int) :
    (outState (extras st t er)).core.target = st.core.target ∧
    (outState (extras st t er)).core.innings1Score = st.core.innings1Score := by
  unfold extras
  repeat' split
  all_goals try simp only []
  all_goals try repeat' split
  all_goals first
    | exact ⟨(finishScoring_target _ _).trans
          ((noballExtrasCore_target _ _ _).trans ((chargeBowler_target _ _).trans rfl)),
        (finishScoring_inn1 _ _).trans
          ((noballExtrasCore_inn1 _ _ _).trans ((chargeBowler_inn1 _ _).trans rfl))⟩
    | exact ⟨(finishScoring_target _ _).trans
          ((wideExtrasCore_target _ _ _).trans ((chargeBowler_target _ _).trans rfl)),
        (finishScoring_inn1 _ _).trans
          ((wideExtrasCore_inn1 _ _ _).trans ((chargeBowler_inn1 _ _).trans rfl))⟩
    | exact ⟨rfl, rfl⟩

set_option maxHeartbeats 1000000 in
/-- The handler leaves `target` and `innings1Score` unchanged. -/
theorem targets_selectBowler (st : MatchState) (bw : String) :
    (outState (selectBowler st bw)).core.target = st.core.target ∧
    (outState (selectBowler st bw)).core.innings1Score = st.core.innings1Score := by
  unfold selectBowler
  repeat' split
  all_goals try simp only []
  all_goals try repeat' split
  all_goals exact ⟨rfl, rfl⟩

set_option maxHeartbeats 1000000 in
/-- The handler leaves `target` and `innings1Score` unchanged. -/
theorem targets_changeStrike (st : MatchState) (a n : String) :
    (outState (changeStrike st a n)).core.target = st.core.target ∧
    (outState (changeStrike st a n)).core.innings1Score = st.core.innings1Score := by
  unfold changeStrike
  repeat' split
  all_goals try simp only []
  all_goals try repeat' split
  all_goals try simp only []
  all_goals try repeat' split
  all_goals exact ⟨rfl, rfl⟩

/-- Claim C9 counterexample: the claim says only Reset or a new
CreateTeams clears the target, but EndInnings pushes a snapshot of the
pre-transition state, so the first Undo after the transition restores
target = 0 and innings = 1. -/
theorem c9_counterexample :
    isOk (endInnings demoLive) = true ∧
    (outState (endInnings demoLive)).core.innings = 2 ∧
    (outState (endInnings demoLive)).core.target =
      (outState (endInnings demoLive)).core.innings1Score.score + 1 ∧
    isOk (undoAction (outState (endInnings demoLive))) = true ∧
    (outState (undoAction (outState (endInnings demoLive)))).core.target = 0 ∧
    (outState (undoAction (outState (endInnings demoLive)))).core.innings = 1 := by decide

/-- Claim C9 (amended): when EndInnings completes the
innings-1-to-innings-2 transition, the accepted result has innings = 2
and target = innings1Score.score + 1; every event handled in innings 2
other than Undo, Reset and CreateTeams leaves target and innings1Score
unchanged (whether it is accepted, rejected, or faults); CreateTeams and
Reset clear the target back to 0, and an Undo whose restored snapshot
predates the transition also reverts it. -/
theorem c9_target_immutable :
    (∀ st st2, st.core.innings = 1 → endInnings st = .ok st2 →
      st2.core.innings = 2 ∧ st2.core.target = st2.core.innings1Score.score + 1) ∧
    (∀ catalog st e, st.core.innings = 2 → e ≠ .undoE → e ≠ .resetE →
      (∀ a b, e ≠ .createTeamsE a b) →
      (outState (applyEvent catalog st e)).core.target = st.core.target ∧
      (outState (applyEvent catalog st e)).core.innings1Score = st.core.innings1Score) ∧
    (∀ catalog st a b, (outState (createTeams catalog st a b)).core.target = 0 ∧
      (outState (resetAction catalog st)).core.target = 0) := by
  refine ⟨?_, ?_, ?_⟩
  · intro st st2 h1 h
    unfold endInnings at h
    rw [if_neg (by simp [h1]), if_neg (by simp [h1])] at h
    repeat' split at h
    all_goals try simp only [] at h
    all_goals try repeat' split at h
    all_goals first
      | exact Outcome.noConfusion h
      | (injection h with h3; subst h3; exact ⟨rfl, rfl⟩)
  · intro catalog st e h2 hu hr hc
    cases e with
    | undoE => exact absurd rfl hu
    | resetE => exact absurd rfl hr
    | createTeamsE a b => exact absurd rfl (hc a b)
    | endInningsE => exact targets_endInnings st h2
    | setTeamsE bt s ns bw ov => exact targets_setTeamsAndMatch st bt s ns bw ov
    | runE v => exact targets_recordRun st v
    | wicketE t => exact targets_recordWicket st t
    | newBatsmanE n => exact targets_newBatsman st n
    | activateLMSE => exact targets_activateLMS st
    | wideE => exact targets_recordWide st
    | noballE => exact targets_recordNoball st
    | extrasE t er => exact targets_extras st t er
    | selectBowlerE bw => exact targets_selectBowler st bw
    | changeStrikeE a n => exact targets_changeStrike st a n
  · intro catalog st a b
    exact ⟨rfl, rfl⟩

/-- Claim C9 witness: the theorem instantiated at the concrete chase
state for a wide, and at the innings-1 end transition from the live
state. -/
theorem c9_witness :
    (outState (endInnings demoLive)).core.target =
      (outState (endInnings demoLive)).core.innings1Score.score + 1 ∧
    (outState (applyEvent [] demoChase .wideE)).core.target = demoChase.core.target ∧
    (outState (applyEvent [] demoChase .wideE)).core.innings1Score =
      demoChase.core.innings1Score :=
  ⟨(c9_target_immutable.1 demoLive (outState (endInnings demoLive)) rfl (by decide)).2,
   (c9_target_immutable.2.1 [] demoChase .wideE rfl (by decide) (by decide)
     (fun a b => by simp)).1,
   (c9_target_immutable.2.1 [] demoChase .wideE rfl (by decide) (by decide)
     (fun a b => by simp)).2⟩

end Cricket
